import Mathlib

set_option maxHeartbeats 1000000
set_option maxRecDepth 8192

/-!
Shallow embedding of the motion-curve evaluation and parameter-blending engine
of this repository (the `CubismOverrideMotion` class and its helper functions).

Modelling conventions:
* JavaScript `number` scalars are modelled as `Rat`.  The claims under study
  concern control flow, segment selection, write ordering and weight formulas,
  none of which depend on floating-point rounding.
* `csmVector.at(i)` reads are modelled with `List.getD i default`; all theorems
  that depend on an element carry in-range or well-formedness hypotheses.
* The per-segment `evaluate` member, which the source stores as a function
  selected at parse time, is modelled as a function-valued field.
* `CubismMath.getEasingSine` and `CubismMath.cardanoAlgorithmForBezier` are
  external framework code (imported from `@cubism/math/cubismmath`, not part of
  this repository); they are passed as abstract function arguments where the
  source calls them.
* The JavaScript sentinel `Number.MAX_VALUE` used for "no pending eye-blink /
  lip-sync overlay value" is modelled as `Option Rat` with `none` as the
  sentinel.
* JavaScript bitwise operators coerce to 32-bit integers and take shift counts
  modulo 32; the claimed-target bitmasks are therefore modelled as `Nat` with
  bit index `i % 32`, which agrees with `(flags |= 1 << i)` / `(flags >> i) & 1`
  for the values reachable here (only bits 0..31 are ever set).
-/

namespace CubismOverride

/-- Interpolation kinds of a motion segment (`CubismMotionSegmentType`). -/
inductive CubismMotionSegmentType where
  | Linear
  | Bezier
  | Stepped
  | InverseStepped
deriving DecidableEq, Repr

/-- One control point of a motion curve (`CubismMotionPoint`). -/
structure CubismMotionPoint where
  time : Rat := 0
  value : Rat := 0
deriving DecidableEq, Repr

instance : Inhabited CubismMotionPoint := ⟨{}⟩

/-- Source `lerpPoints`: linear interpolation of two points, component-wise. -/
def lerpPoints (a b : CubismMotionPoint) (t : Rat) : CubismMotionPoint :=
  { time := a.time + (b.time - a.time) * t
    value := a.value + (b.value - a.value) * t }

/-- Indexing into a control-point array, `points[i]` of the source. -/
def pAt (points : List CubismMotionPoint) (i : Nat) : CubismMotionPoint :=
  points.getD i default

/-- Source `linearEvaluate`.  The parameter `t` is clamped below at 0 but
deliberately not clamped above (the source comment notes this allows mild
extrapolation when called from the correction path). -/
def linearEvaluate (points : List CubismMotionPoint) (time : Rat) : Rat :=
  let t0 := (time - (pAt points 0).time) / ((pAt points 1).time - (pAt points 0).time)
  let t := if t0 < 0 then 0 else t0
  (pAt points 0).value + ((pAt points 1).value - (pAt points 0).value) * t

/-- Source `bezierEvaluate` (the restricted, time-fraction De Casteljau path). -/
def bezierEvaluate (points : List CubismMotionPoint) (time : Rat) : Rat :=
  let t0 := (time - (pAt points 0).time) / ((pAt points 3).time - (pAt points 0).time)
  let t := if t0 < 0 then 0 else t0
  let p01 := lerpPoints (pAt points 0) (pAt points 1) t
  let p12 := lerpPoints (pAt points 1) (pAt points 2) t
  let p23 := lerpPoints (pAt points 2) (pAt points 3) t
  let p012 := lerpPoints p01 p12 t
  let p123 := lerpPoints p12 p23 t
  (lerpPoints p012 p123 t).value

/-- Source `steppedEvaluate`: holds the first point's value. -/
def steppedEvaluate (points : List CubismMotionPoint) (_time : Rat) : Rat :=
  (pAt points 0).value

/-- Source `inverseSteppedEvaluate`: jumps to the second point's value. -/
def inverseSteppedEvaluate (points : List CubismMotionPoint) (_time : Rat) : Rat :=
  (pAt points 1).value

/-- Source `bezierEvaluateCardanoInterpretation`.  The root solve
`CubismMath.cardanoAlgorithmForBezier` is external framework code and is kept
abstract as the `cardanoRoot` argument. -/
def bezierEvaluateCardanoInterpretation (cardanoRoot : Rat → Rat → Rat → Rat → Rat)
    (points : List CubismMotionPoint) (time : Rat) : Rat :=
  let x := time
  let x1 := (pAt points 0).time
  let x2 := (pAt points 3).time
  let cx1 := (pAt points 1).time
  let cx2 := (pAt points 2).time
  let a := x2 - 3 * cx2 + 3 * cx1 - x1
  let b := 3 * cx2 - 6 * cx1 + 3 * x1
  let c := 3 * cx1 - 3 * x1
  let d := x1 - x
  let t := cardanoRoot a b c d
  let p01 := lerpPoints (pAt points 0) (pAt points 1) t
  let p12 := lerpPoints (pAt points 1) (pAt points 2) t
  let p23 := lerpPoints (pAt points 2) (pAt points 3) t
  let p012 := lerpPoints p01 p12 t
  let p123 := lerpPoints p12 p23 t
  (lerpPoints p012 p123 t).value

/-- One interpolation segment of a curve (`CubismMotionSegment`).  As in the
source, the evaluator chosen at parse time is stored as a function member.
The default evaluator stands for the `undefined` member of a freshly allocated
segment; it is never invoked by well-formed data. -/
structure CubismMotionSegment where
  basePointIndex : Nat := 0
  segmentType : CubismMotionSegmentType := .Linear
  evaluate : List CubismMotionPoint → Rat → Rat := fun _ _ => 0

instance : Inhabited CubismMotionSegment := ⟨{}⟩

/-- Target kind of one curve (`CubismMotionCurveTarget`). -/
inductive CubismMotionCurveTarget where
  | Model
  | Parameter
  | PartOpacity
deriving DecidableEq, Repr

/-- One animated channel (`CubismMotionCurve`).  Identifiers are modelled as
plain strings (the source resolves `CubismIdHandle`s to strings through
`revealIdString` before every comparison). -/
structure CubismMotionCurve where
  type : CubismMotionCurveTarget := .Model
  id : String := ""
  segmentCount : Nat := 0
  baseSegmentIndex : Nat := 0
  fadeInTime : Rat := 0
  fadeOutTime : Rat := 0
deriving DecidableEq, Repr

instance : Inhabited CubismMotionCurve := ⟨{}⟩

/-- One user-data event (`CubismMotionEvent`). -/
structure CubismMotionEvent where
  fireTime : Rat := 0
  value : String := ""
deriving DecidableEq, Repr

instance : Inhabited CubismMotionEvent := ⟨{}⟩

/-- The flattened motion asset (`CubismMotionData`). -/
structure CubismMotionData where
  duration : Rat := -1
  loop : Bool := false
  curveCount : Nat := 0
  fps : Rat := 0
  eventCount : Nat := 0
  curves : List CubismMotionCurve := []
  segments : List CubismMotionSegment := []
  points : List CubismMotionPoint := []
  events : List CubismMotionEvent := []

instance : Inhabited CubismMotionData := ⟨{}⟩

/-- Read `motionData.curves.at(i)`. -/
def CubismMotionData.curvesAt (md : CubismMotionData) (i : Nat) : CubismMotionCurve :=
  md.curves.getD i default

/-- Read `motionData.segments.at(i)`. -/
def CubismMotionData.segmentsAt (md : CubismMotionData) (i : Nat) : CubismMotionSegment :=
  md.segments.getD i default

/-- Read `motionData.points.at(i)`. -/
def CubismMotionData.pointsAt (md : CubismMotionData) (i : Nat) : CubismMotionPoint :=
  md.points.getD i default

/-- Read `motionData.events.at(i)`. -/
def CubismMotionData.eventsAt (md : CubismMotionData) (i : Nat) : CubismMotionEvent :=
  md.events.getD i default

/-- Source `correctEndPoint`: synthesizes a two-point blend from the point at
`endIndex` (kept at its own time and value) to the value of the point at
`beginIndex` placed at `endTime`, and evaluates it with the type of segment
`segmentIndex`, where `Linear`, `Bezier` and the default case all use
`linearEvaluate`. -/
def correctEndPoint (md : CubismMotionData) (segmentIndex beginIndex endIndex : Nat)
    (time endTime : Rat) : Rat :=
  let mp0 : CubismMotionPoint :=
    { time := (md.pointsAt endIndex).time, value := (md.pointsAt endIndex).value }
  let mp1 : CubismMotionPoint :=
    { time := endTime, value := (md.pointsAt beginIndex).value }
  let motionPoint := [mp0, mp1]
  match (md.segmentsAt segmentIndex).segmentType with
  | .Stepped => steppedEvaluate motionPoint time
  | .InverseStepped => inverseSteppedEvaluate motionPoint time
  | _ => linearEvaluate motionPoint time

/-- Position of the point the scan loop tests for segment `j`: the segment's
base point plus 3 for a Bezier segment, plus 1 otherwise (the first point of
the next segment). -/
def segmentEndPosition (md : CubismMotionData) (j : Nat) : Nat :=
  (md.segmentsAt j).basePointIndex +
    (if (md.segmentsAt j).segmentType = CubismMotionSegmentType.Bezier then 3 else 1)

/-- The segment-scan loop inside `evaluateCurve`: starting at segment `i`,
walk up to (but excluding) `stop`; at each segment compute the position of the
first point of the next segment (`basePointIndex + 3` for a Bezier segment,
`+ 1` otherwise) and stop at the first segment whose such point lies strictly
after `time`.  Returns the found segment (if any) together with the last
computed point position (`pointPosition` of the source, threaded through so
the caller sees its final value). -/
def evaluateCurveScan (md : CubismMotionData) (time : Rat) (i stop pointPosition : Nat) :
    Option Nat × Nat :=
  if h : i < stop then
    let pp := segmentEndPosition md i
    if time < (md.pointsAt pp).time then (some i, pp)
    else evaluateCurveScan md time (i + 1) stop pp
  else (none, pointPosition)
termination_by stop - i
decreasing_by omega

/-- Source `evaluateCurve`: scan the curve's segments for the active one and
evaluate it with its own control points; if none qualifies, either apply the
end-point correction (when `isCorrection` is set and `time < endTime`) or hold
the value of the point at the final scan position. -/
def evaluateCurve (md : CubismMotionData) (index : Nat) (time : Rat)
    (isCorrection : Bool) (endTime : Rat) : Rat :=
  let curve := md.curvesAt index
  let totalSegmentCount := curve.baseSegmentIndex + curve.segmentCount
  match evaluateCurveScan md time curve.baseSegmentIndex totalSegmentCount 0 with
  | (some target, _) =>
    let segment := md.segmentsAt target
    segment.evaluate (md.points.drop segment.basePointIndex) time
  | (none, pointPosition) =>
    if isCorrection = true ∧ time < endTime then
      correctEndPoint md (totalSegmentCount - 1)
        ((md.segmentsAt curve.baseSegmentIndex).basePointIndex) pointPosition time endTime
    else (md.pointsAt pointPosition).value

/-- Index of the last segment belonging to the curve at `index`. -/
def curveLastSegmentIndex (md : CubismMotionData) (index : Nat) : Nat :=
  (md.curvesAt index).baseSegmentIndex + (md.curvesAt index).segmentCount - 1

/-- Index of the last stored point of the curve at `index` (the end point of
its last segment; for contiguously laid-out curve data this is the final point
of the curve's slice of the point array). -/
def curveLastPointIndex (md : CubismMotionData) (index : Nat) : Nat :=
  segmentEndPosition md (curveLastSegmentIndex md index)

/-- Claim C2 reading of the scan point of a segment: "the 3rd of 4 points for
a Bezier segment, otherwise the 2nd point", with both ordinals read
consistently (1-based): point index `basePointIndex + 2` for Bezier and
`basePointIndex + 1` otherwise.  This is the specification's "last control
point" in the strict sense in which only the off-curve points of a cubic
Bezier are its control points. -/
def claimScanPositionC2 (md : CubismMotionData) (j : Nat) : Nat :=
  (md.segmentsAt j).basePointIndex +
    (if (md.segmentsAt j).segmentType = CubismMotionSegmentType.Bezier then 2 else 1)

/-- Claim C2 as stated: evaluate (with its own control points) the first
segment, in curve order, whose claim-scan point time strictly exceeds the
query time; if no segment qualifies, return the last stored point's value. -/
def evaluateCurveClaimC2 (md : CubismMotionData) (index : Nat) (time : Rat) : Rat :=
  let curve := md.curvesAt index
  match (List.range' curve.baseSegmentIndex curve.segmentCount).find?
      (fun j => decide (time < (md.pointsAt (claimScanPositionC2 md j)).time)) with
  | some j => (md.segmentsAt j).evaluate (md.points.drop (md.segmentsAt j).basePointIndex) time
  | none => (md.pointsAt (curveLastPointIndex md index)).value

/-- Amended claim C2: identical to `evaluateCurveClaimC2` except that the
scanned point of a segment is its final stored point (the 4th of 4 points for
a Bezier segment, otherwise the 2nd point), as the source computes it. -/
def evaluateCurveSpecC2 (md : CubismMotionData) (index : Nat) (time : Rat) : Rat :=
  let curve := md.curvesAt index
  match (List.range' curve.baseSegmentIndex curve.segmentCount).find?
      (fun j => decide (time < (md.pointsAt (segmentEndPosition md j)).time)) with
  | some j => (md.segmentsAt j).evaluate (md.points.drop (md.segmentsAt j).basePointIndex) time
  | none => (md.pointsAt (curveLastPointIndex md index)).value

/-- Claim C3's synthesized two-point blend: first point is the curve's last
stored point at its own time, second point carries the curve's first point's
value placed at `loopEndTime`; evaluated with the last segment's type, where a
Bezier last segment degrades to Linear. -/
def endPointCorrectionClaimC3 (md : CubismMotionData) (index : Nat)
    (time loopEndTime : Rat) : Rat :=
  let lastP := md.pointsAt (curveLastPointIndex md index)
  let firstP := md.pointsAt ((md.segmentsAt (md.curvesAt index).baseSegmentIndex).basePointIndex)
  let blend : List CubismMotionPoint :=
    [{ time := lastP.time, value := lastP.value }, { time := loopEndTime, value := firstP.value }]
  match (md.segmentsAt (curveLastSegmentIndex md index)).segmentType with
  | .Stepped => steppedEvaluate blend time
  | .InverseStepped => inverseSteppedEvaluate blend time
  | .Bezier => linearEvaluate blend time
  | .Linear => linearEvaluate blend time

/-- Concrete single-curve motion used to separate the claim C2 reading from
the source: one Bezier segment with points (0,0), (1/2,0), (3/2,1), (2,1)
(times strictly increasing, so all data-model invariants hold).  The stored
evaluator is the restricted-Bezier path, as parse selects for an asset with
`AreBeziersRestricted` set. -/
def exMdC2 : CubismMotionData :=
  { duration := 2
    curveCount := 1
    fps := 30
    curves := [{ type := .Parameter, id := "P", segmentCount := 1, baseSegmentIndex := 0,
                 fadeInTime := -1, fadeOutTime := -1 }]
    segments := [{ basePointIndex := 0, segmentType := .Bezier, evaluate := bezierEvaluate }]
    points := [{ time := 0, value := 0 }, { time := 1/2, value := 0 },
               { time := 3/2, value := 1 }, { time := 2, value := 1 }] }

/-- Source constant `EffectNameEyeBlink`. -/
def EffectNameEyeBlink : String := "EyeBlink"

/-- Source constant `EffectNameLipSync`. -/
def EffectNameLipSync : String := "LipSync"

/-- Source constant `IdNameOpacity`. -/
def IdNameOpacity : String := "Opacity"

/-- Source enum `MotionBehavior`. -/
inductive MotionBehavior where
  | MotionBehavior_V1
  | MotionBehavior_V2
deriving DecidableEq, Repr

/-- The slice of `CubismMotionQueueEntry` this engine reads and writes. -/
structure CubismMotionQueueEntry where
  startTime : Rat := 0
  fadeInStartTime : Rat := 0
  endTime : Rat := -1
  isFinished : Bool := false
deriving DecidableEq, Repr

/-- Read-only view of the target `CubismModel`: its parameter and part id
tables (ids as strings, as the source resolves them via `revealIdString`). -/
structure ModelView where
  parameterIds : List String := []
  partIds : List String := []
deriving DecidableEq, Repr

/-- First index of `name` in a list of id strings, if any. -/
def firstIdx? : List String → String → Option Nat
  | [], _ => none
  | x :: xs, name => if x = name then some 0 else (firstIdx? xs name).map (· + 1)

/-- Source `findParameterIndex`: first model parameter whose id string equals
`name`, or -1. -/
def findParameterIndex (model : ModelView) (name : String) : Int :=
  match firstIdx? model.parameterIds name with
  | some i => (i : Int)
  | none => -1

/-- Source `findPartIndex`: first model part whose id string equals `name`,
or -1. -/
def findPartIndex (model : ModelView) (name : String) : Int :=
  match firstIdx? model.partIds name with
  | some i => (i : Int)
  | none => -1

/-- External `CubismModel.getParameterIndex` (framework code outside this
repository), modelled as a first-index lookup of the id among the model's
parameters, -1 when absent.  It is only used by the part-opacity loop, which
no claim depends on. -/
def getParameterIndexById (model : ModelView) (name : String) : Int :=
  match firstIdx? model.parameterIds name with
  | some i => (i : Int)
  | none => -1

/-- The mutable fields of `CubismOverrideMotion` (including those inherited
from `ACubismMotion`) that `doUpdateParameters` reads or writes.  Defaults
follow the constructors (`ACubismMotion`: fade times -1, weight 1).
`onFinishedPresent` records whether an `_onFinishedMotion` callback is
registered; `previousLoopState` is the field of that name (read before ever
being assigned in the source; modelled as an ordinary Boolean field). -/
structure CubismOverrideMotion where
  motionData : Option CubismMotionData := none
  motionBehavior : MotionBehavior := .MotionBehavior_V2
  previousLoopState : Bool := false
  isLoop : Bool := false
  isLoopFadeIn : Bool := true
  fadeInSeconds : Rat := -1
  fadeOutSeconds : Rat := -1
  weight : Rat := 1
  lastWeight : Rat := 0
  sourceFrameRate : Rat := 30
  loopDurationSeconds : Rat := -1
  modelOpacity : Rat := 1
  eyeBlinkParameterIds : Option (List String) := none
  lipSyncParameterIds : Option (List String) := none
  eyeBlinkAdditive : Bool := false
  lipSyncAdditive : Bool := false
  parameterAdditiveIndicies : List Int := []
  partOpacityAdditiveIndicies : List Int := []
  onFinishedPresent : Bool := false

instance : Inhabited CubismOverrideMotion := ⟨{}⟩

/-- Which call site of the source produced a model write.  This tag is pure
instrumentation of the observation log; it does not influence any computed
value. -/
inductive WriteSite where
  | modelOpacityWrite
  | paramCurve
  | eyeBlinkOverlay
  | lipSyncOverlay
  | partOpacityCurve
deriving DecidableEq, Repr

/-- One write into the model, as observed by the log.  `sourceIndex` is the
curve index for curve-driven writes and the target-list position for overlay
writes; `paramIndex` is the resolved parameter index for by-index writes. -/
structure ModelWrite where
  site : WriteSite
  sourceIndex : Nat := 0
  targetId : String := ""
  paramIndex : Int := -1
  additive : Bool := false
  value : Rat := 0
  weight : Rat := 1
deriving DecidableEq, Repr

instance : Inhabited ModelWrite := ⟨{ site := .modelOpacityWrite }⟩

/-- Ceiling of a rational, via its floor. -/
def ratCeil (q : Rat) : Int := -((-q).floor)

/-- One bounded run of the source loop `while (time > duration) time -= duration`. -/
def reduceLoopAux : Nat → Rat → Rat → Rat
  | 0, time, _ => time
  | fuel + 1, time, duration =>
    if duration < time then reduceLoopAux fuel (time - duration) duration else time

/-- The repeated-subtraction reduction of the sampling time for a looping
motion (`while (time > duration) time -= duration`).  The fuel bounds the
iteration count whenever `0 < duration`; for `duration ≤ 0 < time` the source
loop does not terminate (a corner no claim probes). -/
def reduceLoopTime (time duration : Rat) : Rat :=
  reduceLoopAux ((ratCeil (time / duration)).toNat + 1) time duration

/-- External `ACubismMotion.adjustEndTime` (framework code outside this
repository), modelled from the SDK: with `getDuration()` being -1 for a
looping motion and `loopDurationSeconds` otherwise, the entry's end time
becomes -1 (unbounded) when that duration is non-positive, else
`startTime + duration`.  Only the entry's end time is touched. -/
def adjustEndTime (motion : CubismOverrideMotion) (entry : CubismMotionQueueEntry) :
    CubismMotionQueueEntry :=
  let dur := if motion.isLoop then (-1 : Rat) else motion.loopDurationSeconds
  { entry with endTime := if dur ≤ 0 then -1 else entry.startTime + dur }

/-- Source `updateForNextLoop`.  Returns the updated entry together with the
flag "the finished-motion callback was invoked" (the V2 branch invokes it when
registered; the V1 branch never does). -/
def updateForNextLoop (motion : CubismOverrideMotion) (entry : CubismMotionQueueEntry)
    (userTimeSeconds time : Rat) : CubismMotionQueueEntry × Bool :=
  match motion.motionBehavior with
  | .MotionBehavior_V2 =>
    ({ entry with
        startTime := userTimeSeconds - time
        fadeInStartTime :=
          if motion.isLoopFadeIn then userTimeSeconds - time else entry.fadeInStartTime },
      motion.onFinishedPresent)
  | .MotionBehavior_V1 =>
    ({ entry with
        startTime := userTimeSeconds
        fadeInStartTime :=
          if motion.isLoopFadeIn then userTimeSeconds else entry.fadeInStartTime },
      false)

/-- The Model-target curve loop of `doUpdateParameters`: walk curves from `c`
while they target the model; cache `EyeBlink` / `LipSync` sampled values as
pending overlay values, write `Opacity` to the model opacity.  Returns the
next curve index, the two pending values, the model opacity and the write log. -/
def modelCurvesLoop (md : CubismMotionData) (time duration : Rat) (isCorrection : Bool)
    (c : Nat) (ebv lsv : Option Rat) (mo : Rat) (ws : List ModelWrite) :
    Nat × Option Rat × Option Rat × Rat × List ModelWrite :=
  if h : c < md.curveCount ∧ (md.curvesAt c).type = CubismMotionCurveTarget.Model then
    let value := evaluateCurve md c time isCorrection duration
    if (md.curvesAt c).id = EffectNameEyeBlink then
      modelCurvesLoop md time duration isCorrection (c + 1) (some value) lsv mo ws
    else if (md.curvesAt c).id = EffectNameLipSync then
      modelCurvesLoop md time duration isCorrection (c + 1) ebv (some value) mo ws
    else if (md.curvesAt c).id = IdNameOpacity then
      modelCurvesLoop md time duration isCorrection (c + 1) ebv lsv value
        (ws ++ [{ site := .modelOpacityWrite, sourceIndex := c, targetId := (md.curvesAt c).id,
                  value := value, weight := 1 }])
    else
      modelCurvesLoop md time duration isCorrection (c + 1) ebv lsv mo ws
  else (c, ebv, lsv, mo, ws)
termination_by md.curveCount - c
decreasing_by all_goals omega

/-- The per-curve effect-claiming loop of the Parameter pass (the source has
one copy for eye-blink, which multiplies the sampled value by the overlay
value, and one for lip-sync, which adds it; `apply` abstracts that one
difference).  Scans the target-id list from `i` (bounded by the list size and
by `maxTargetSize = 64`); at the first entry that is truthy and equals the
curve's id it applies the overlay to the value, sets bit `i % 32` of the flag
mask (JavaScript `1 << i` shifts by `i` modulo 32) and stops. -/
def effectClaimLoop (ids : List String) (name : String) (apply : Rat → Rat)
    (i : Nat) (value : Rat) (flags : Nat) : Rat × Nat :=
  if h : i < ids.length ∧ i < 64 then
    let idStr := ids.getD i ""
    if idStr ≠ "" ∧ idStr = name then (apply value, flags ||| (1 <<< (i % 32)))
    else effectClaimLoop ids name apply (i + 1) value flags
  else (value, flags)
termination_by ids.length - i
decreasing_by omega

/-- The overlay pass loop (one copy each for eye-blink and lip-sync in the
source; `site` tags which one).  For every list position `i` (bounded by the
list size and by 64) whose claimed-flag bit `i % 32` is unset (JavaScript
`(flags >> i) & 1` shifts by `i` modulo 32), append a by-id write of the
pending value `v` at weight `fadeWeight`, additive or override per the given
flag. -/
def effectOverlayLoop (site : WriteSite) (ids : List String) (v fadeWeight : Rat)
    (additive : Bool) (flags : Nat) (i : Nat) (ws : List ModelWrite) : List ModelWrite :=
  if h : i < ids.length ∧ i < 64 then
    if (flags >>> (i % 32)) &&& 1 = 1 then
      effectOverlayLoop site ids v fadeWeight additive flags (i + 1) ws
    else
      effectOverlayLoop site ids v fadeWeight additive flags (i + 1)
        (ws ++ [{ site := site, sourceIndex := i, targetId := ids.getD i "",
                  additive := additive, value := v, weight := fadeWeight }])
  else ws
termination_by ids.length - i
decreasing_by all_goals omega

/-- The per-curve fade-weight block of the Parameter loop (the source inlines
it): the global `fadeWeight` when the curve declares no per-curve fade
override on either side, else `_weight * fin * fout` with each factor taken
from the invocation-level ramp (`tmpFadeIn`/`tmpFadeOut`) for a negative
per-curve time, 1 for a zero per-curve time (and for fade-out also when the
entry's end time is negative), and the curve's own sine-eased ramp
otherwise. -/
def loopParamWeight (curve : CubismMotionCurve) (motion : CubismOverrideMotion)
    (entry : CubismMotionQueueEntry) (es : Rat → Rat)
    (userTimeSeconds fadeWeight tmpFadeIn tmpFadeOut : Rat) : Rat :=
  if curve.fadeInTime < 0 ∧ curve.fadeOutTime < 0 then fadeWeight
  else
    let fin :=
      if curve.fadeInTime < 0 then tmpFadeIn
      else if curve.fadeInTime = 0 then 1
      else es ((userTimeSeconds - entry.fadeInStartTime) / curve.fadeInTime)
    let fout :=
      if curve.fadeOutTime < 0 then tmpFadeOut
      else if curve.fadeOutTime = 0 ∨ entry.endTime < 0 then 1
      else es ((entry.endTime - userTimeSeconds) / curve.fadeOutTime)
    motion.weight * fin * fout

/-- The guarded overlay application (`if (value != Number.MAX_VALUE)` around
each overlay loop in the source): nothing happens when no overlay value is
pending. -/
def applyOverlay (site : WriteSite) (ids : List String) (ov : Option Rat)
    (fadeWeight : Rat) (additive : Bool) (flags : Nat) (ws : List ModelWrite) :
    List ModelWrite :=
  match ov with
  | some v => effectOverlayLoop site ids v fadeWeight additive flags 0 ws
  | none => ws

/-- One processed Parameter curve with a resolved parameter index (the body
of the source's Parameter loop): sample the curve, run both claiming loops,
compute the per-curve weight, and emit the write.  Returns the write and the
updated eye-blink and lip-sync flag masks.  (`parameterIndex` is recomputed
here from the same pure lookup the loop used for its skip test.) -/
def paramCurveStep (md : CubismMotionData) (model : ModelView) (es : Rat → Rat)
    (motion : CubismOverrideMotion) (entry : CubismMotionQueueEntry)
    (userTimeSeconds fadeWeight time duration : Rat) (isCorrection : Bool)
    (tmpFadeIn tmpFadeOut : Rat) (ebv lsv : Option Rat) (ebIds lsIds : List String)
    (c : Nat) (ebFlags lsFlags : Nat) : ModelWrite × Nat × Nat :=
  let curveIdName := (md.curvesAt c).id
  let parameterIndex := findParameterIndex model curveIdName
  let value0 := evaluateCurve md c time isCorrection duration
  let r1 := match ebv with
    | some e => effectClaimLoop ebIds curveIdName (fun v => v * e) 0 value0 ebFlags
    | none => (value0, ebFlags)
  let r2 := match lsv with
    | some l => effectClaimLoop lsIds curveIdName (fun v => v + l) 0 r1.1 lsFlags
    | none => (r1.1, lsFlags)
  let paramWeight := loopParamWeight (md.curvesAt c) motion entry es
    userTimeSeconds fadeWeight tmpFadeIn tmpFadeOut
  ({ site := .paramCurve, sourceIndex := c, targetId := curveIdName
     paramIndex := parameterIndex
     additive := motion.parameterAdditiveIndicies.contains parameterIndex
     value := r2.1, weight := paramWeight }, r1.2, r2.2)

/-- The Parameter-target curve loop of `doUpdateParameters`: for each curve
targeting a parameter, resolve the parameter by name (skipping unresolved
ones), sample the curve, fold in pending eye-blink/lip-sync overlay values
(claiming their list position), compute the per-curve fade weight and append
the write.  Returns the next curve index, both flag masks, the processed-curve
count and the write log. -/
def paramCurvesLoop (md : CubismMotionData) (model : ModelView) (es : Rat → Rat)
    (motion : CubismOverrideMotion) (entry : CubismMotionQueueEntry)
    (userTimeSeconds fadeWeight time duration : Rat) (isCorrection : Bool)
    (tmpFadeIn tmpFadeOut : Rat) (ebv lsv : Option Rat) (ebIds lsIds : List String)
    (c : Nat) (ebFlags lsFlags : Nat) (pmcc : Nat) (ws : List ModelWrite) :
    Nat × Nat × Nat × Nat × List ModelWrite :=
  if h : c < md.curveCount ∧ (md.curvesAt c).type = CubismMotionCurveTarget.Parameter then
    if findParameterIndex model (md.curvesAt c).id = -1 then
      paramCurvesLoop md model es motion entry userTimeSeconds fadeWeight time duration
        isCorrection tmpFadeIn tmpFadeOut ebv lsv ebIds lsIds
        (c + 1) ebFlags lsFlags (pmcc + 1) ws
    else
      let s := paramCurveStep md model es motion entry userTimeSeconds fadeWeight time duration
        isCorrection tmpFadeIn tmpFadeOut ebv lsv ebIds lsIds c ebFlags lsFlags
      paramCurvesLoop md model es motion entry userTimeSeconds fadeWeight time duration
        isCorrection tmpFadeIn tmpFadeOut ebv lsv ebIds lsIds
        (c + 1) s.2.1 s.2.2 (pmcc + 1) (ws ++ [s.1])
  else (c, ebFlags, lsFlags, pmcc, ws)
termination_by md.curveCount - c
decreasing_by all_goals omega

/-- The PartOpacity-target curve loop of `doUpdateParameters`.  As in the
source, `findPartIndex` is computed but unused; the write goes to the index
returned by the model's `getParameterIndex`, skipped when -1, with the SDK
default weight 1. -/
def partOpacityCurvesLoop (md : CubismMotionData) (model : ModelView)
    (motion : CubismOverrideMotion) (time duration : Rat) (isCorrection : Bool)
    (c : Nat) (ws : List ModelWrite) : Nat × List ModelWrite :=
  if h : c < md.curveCount ∧ (md.curvesAt c).type = CubismMotionCurveTarget.PartOpacity then
    let curveIdName := (md.curvesAt c).id
    let _partIndex := findPartIndex model curveIdName
    let parameterIndex := getParameterIndexById model curveIdName
    if parameterIndex = -1 then
      partOpacityCurvesLoop md model motion time duration isCorrection (c + 1) ws
    else
      let value := evaluateCurve md c time isCorrection duration
      partOpacityCurvesLoop md model motion time duration isCorrection (c + 1)
        (ws ++ [{ site := .partOpacityCurve, sourceIndex := c, targetId := curveIdName
                  paramIndex := parameterIndex
                  additive := motion.partOpacityAdditiveIndicies.contains parameterIndex
                  value := value, weight := 1 }])
  else (c, ws)
termination_by md.curveCount - c
decreasing_by all_goals omega

/-- The entry as of the start of the pass: `adjustEndTime` is applied when
the behavior is V2 and the loop flag changed since the previous pass. -/
def entryAfterAdjust (motion : CubismOverrideMotion) (entryIn : CubismMotionQueueEntry) :
    CubismMotionQueueEntry :=
  if motion.motionBehavior = MotionBehavior.MotionBehavior_V2 ∧
      motion.previousLoopState ≠ motion.isLoop
  then adjustEndTime motion entryIn else entryIn

/-- The clamped elapsed time (`timeOffsetSeconds` of the source). -/
def timeOffsetOf (userTimeSeconds : Rat) (entry : CubismMotionQueueEntry) : Rat :=
  max 0 (userTimeSeconds - entry.startTime)

/-- The asset-level fade-in ramp (`tmpFadeIn` of the source). -/
def assetFadeInFactor (motion : CubismOverrideMotion) (es : Rat → Rat)
    (userTimeSeconds : Rat) (entry : CubismMotionQueueEntry) : Rat :=
  if motion.fadeInSeconds ≤ 0 then 1
  else es ((userTimeSeconds - entry.fadeInStartTime) / motion.fadeInSeconds)

/-- The asset-level fade-out ramp (`tmpFadeOut` of the source). -/
def assetFadeOutFactor (motion : CubismOverrideMotion) (es : Rat → Rat)
    (userTimeSeconds : Rat) (entry : CubismMotionQueueEntry) : Rat :=
  if motion.fadeOutSeconds ≤ 0 ∨ entry.endTime < 0 then 1
  else es ((entry.endTime - userTimeSeconds) / motion.fadeOutSeconds)

/-- Whether end-point loop correction applies (`isCorrection` of the source). -/
def isCorrectionOf (motion : CubismOverrideMotion) : Bool :=
  decide (motion.motionBehavior = MotionBehavior.MotionBehavior_V2 ∧ motion.isLoop = true)

/-- The behavior-adjusted duration (one frame period is added when looping
under V2, to avoid a one-frame gap at the seam). -/
def adjustedDuration (motion : CubismOverrideMotion) (md : CubismMotionData) : Rat :=
  if motion.isLoop = true ∧ motion.motionBehavior = MotionBehavior.MotionBehavior_V2
  then md.duration + 1 / md.fps else md.duration

/-- The sampling time: the clamped elapsed time, modulo-reduced by repeated
subtraction when looping. -/
def sampleTimeOf (motion : CubismOverrideMotion) (md : CubismMotionData)
    (userTimeSeconds : Rat) (entry : CubismMotionQueueEntry) : Rat :=
  if motion.isLoop
  then reduceLoopTime (timeOffsetOf userTimeSeconds entry) (adjustedDuration motion md)
  else timeOffsetOf userTimeSeconds entry

/-- Everything observable about one `doUpdateParameters` invocation: the
updated queue entry, the updated motion fields, the ordered model-write log,
whether the finished-motion callback was invoked, and (as exposed
intermediates) the reduced sampling time, the pending overlay values and the
claimed-flag masks. -/
structure DoUpdateResult where
  entry : CubismMotionQueueEntry
  motion : CubismOverrideMotion
  writes : List ModelWrite := []
  finishedInvoked : Bool := false
  sampleTime : Rat := 0
  eyeBlinkValue : Option Rat := none
  lipSyncValue : Option Rat := none
  eyeBlinkFlags : Nat := 0
  lipSyncFlags : Nat := 0

/-- Source `doUpdateParameters`.  `es` stands for the external
`CubismMath.getEasingSine`. -/
def doUpdateParameters (motion : CubismOverrideMotion) (model : ModelView)
    (es : Rat → Rat) (userTimeSeconds fadeWeight : Rat)
    (entryIn : CubismMotionQueueEntry) : DoUpdateResult :=
  match motion.motionData with
  | none => { entry := entryIn, motion := motion }
  | some md =>
    let adjust := motion.motionBehavior = MotionBehavior.MotionBehavior_V2 ∧
      motion.previousLoopState ≠ motion.isLoop
    let entry := entryAfterAdjust motion entryIn
    let motion1 := if adjust then { motion with previousLoopState := motion.isLoop } else motion
    let timeOffsetSeconds := timeOffsetOf userTimeSeconds entry
    let tmpFadeIn := assetFadeInFactor motion es userTimeSeconds entry
    let tmpFadeOut := assetFadeOutFactor motion es userTimeSeconds entry
    let isCorrection := isCorrectionOf motion
    let duration := adjustedDuration motion md
    let time := sampleTimeOf motion md userTimeSeconds entry
    let r1 := modelCurvesLoop md time duration isCorrection 0 none none
      motion.modelOpacity []
    let ebv := r1.2.1
    let lsv := r1.2.2.1
    let mo := r1.2.2.2.1
    let ebIds := motion.eyeBlinkParameterIds.getD []
    let lsIds := motion.lipSyncParameterIds.getD []
    let r2 := paramCurvesLoop md model es motion entry userTimeSeconds fadeWeight time duration
      isCorrection tmpFadeIn tmpFadeOut ebv lsv ebIds lsIds
      r1.1 0 0 0 r1.2.2.2.2
    let ws2 := r2.2.2.2.2
    let ws3 := applyOverlay .eyeBlinkOverlay ebIds ebv fadeWeight motion.eyeBlinkAdditive
      r2.2.1 ws2
    let ws4 := applyOverlay .lipSyncOverlay lsIds lsv fadeWeight motion.eyeBlinkAdditive
      r2.2.2.1 ws3
    let r3 := partOpacityCurvesLoop md model motion time duration isCorrection r2.1 ws4
    let fin :=
      if duration ≤ timeOffsetSeconds then
        if motion.isLoop then updateForNextLoop motion entry userTimeSeconds time
        else ({ entry with isFinished := true }, motion.onFinishedPresent)
      else (entry, false)
    { entry := fin.1
      motion := { motion1 with lastWeight := fadeWeight, modelOpacity := mo }
      writes := r3.2
      finishedInvoked := fin.2
      sampleTime := time
      eyeBlinkValue := ebv
      lipSyncValue := lsv
      eyeBlinkFlags := r2.2.1
      lipSyncFlags := r2.2.2.1 }

/-- The event-scan loop of `getFiredEvent`. -/
def getFiredEventLoop (md : CubismMotionData) (before motionTime : Rat) (u : Nat)
    (acc : List String) : List String :=
  if h : u < md.eventCount then
    if before < (md.eventsAt u).fireTime ∧ (md.eventsAt u).fireTime ≤ motionTime then
      getFiredEventLoop md before motionTime (u + 1) (acc ++ [(md.eventsAt u).value])
    else getFiredEventLoop md before motionTime (u + 1) acc
  else acc
termination_by md.eventCount - u
decreasing_by all_goals omega

/-- Source `getFiredEvent`: collect, in stored order, the payloads of every
event whose fire time lies in `(beforeCheckTimeSeconds, motionTimeSeconds]`. -/
def getFiredEvent (motion : CubismOverrideMotion)
    (beforeCheckTimeSeconds motionTimeSeconds : Rat) : List String :=
  match motion.motionData with
  | none => []
  | some md => getFiredEventLoop md beforeCheckTimeSeconds motionTimeSeconds 0 []

/-- Claim C5's description of the weight applied to a Parameter-curve write:
the invocation's global `fadeWeight` exactly when both per-curve fade times
are negative; otherwise the motion weight times a fade-in factor and a
fade-out factor, where a per-curve fade time of 0 yields factor 1 and a
negative per-curve fade time on one side falls back to the asset-level
sine-eased ramp for that side. -/
def claimParamWeightC5 (motion : CubismOverrideMotion) (entry : CubismMotionQueueEntry)
    (es : Rat → Rat) (userTimeSeconds fadeWeight : Rat) (curve : CubismMotionCurve) : Rat :=
  if curve.fadeInTime < 0 ∧ curve.fadeOutTime < 0 then fadeWeight
  else
    let assetFadeIn :=
      if motion.fadeInSeconds ≤ 0 then 1
      else es ((userTimeSeconds - entry.fadeInStartTime) / motion.fadeInSeconds)
    let assetFadeOut :=
      if motion.fadeOutSeconds ≤ 0 ∨ entry.endTime < 0 then 1
      else es ((entry.endTime - userTimeSeconds) / motion.fadeOutSeconds)
    let fin :=
      if curve.fadeInTime < 0 then assetFadeIn
      else if curve.fadeInTime = 0 then 1
      else es ((userTimeSeconds - entry.fadeInStartTime) / curve.fadeInTime)
    let fout :=
      if curve.fadeOutTime < 0 then assetFadeOut
      else if curve.fadeOutTime = 0 ∨ entry.endTime < 0 then 1
      else es ((entry.endTime - userTimeSeconds) / curve.fadeOutTime)
    motion.weight * fin * fout

/-- Source constant `TargetNameModel`. -/
def TargetNameModel : String := "Model"

/-- Source constant `TargetNameParameter`. -/
def TargetNameParameter : String := "Parameter"

/-- Source constant `TargetNamePartOpacity`. -/
def TargetNamePartOpacity : String := "PartOpacity"

/-- Source constant `UseOldBeziersCurveMotion` (hard-coded `false`). -/
def UseOldBeziersCurveMotion : Bool := false

/-- The `Meta` object of a parsed motion3.json document. -/
structure MotionJsonMeta where
  duration : Rat := 0
  fps : Rat := 0
  loop : Bool := false
  curveCount : Nat := 0
  totalSegmentCount : Nat := 0
  totalPointCount : Nat := 0
  userDataCount : Nat := 0
  fadeInTime : Option Rat := none
  fadeOutTime : Option Rat := none
  areBeziersRestricted : Bool := false
deriving DecidableEq, Repr

/-- One element of the `Curves` array of a motion3.json document; the segment
stream is the flat number list `[time, value, type, time, value, ...]`. -/
structure MotionJsonCurve where
  target : String := ""
  id : String := ""
  fadeInTime : Option Rat := none
  fadeOutTime : Option Rat := none
  segments : List Rat := []
deriving DecidableEq, Repr

/-- One element of the optional `UserData` array of a motion3.json document. -/
structure MotionJsonUserData where
  time : Rat := 0
  value : String := ""
deriving DecidableEq, Repr

/-- A decoded motion3.json document (the output of `JSON.parse`; `none` at the
use site below models a falsy decode result). -/
structure MotionJson where
  meta : MotionJsonMeta := {}
  curves : List MotionJsonCurve := []
  userData : Option (List MotionJsonUserData) := none
deriving DecidableEq, Repr

/-- Outcome of running a piece of the parser: a value, an uncaught JavaScript
exception (`crash` — in particular a TypeError from writing a property of
`undefined` returned by an out-of-range `csmVector.at`), or fuel exhaustion
(`spin`, which with the generous fuel bounds used below only stands for a
non-terminating run). -/
inductive ParseStatus (α : Type) where
  | ok (a : α)
  | crash
  | spin
deriving Repr

/-- Update the element at `i`, or fail when `i` is outside the allocated
range (JavaScript: assigning a property of `undefined` throws). -/
def setAt {α : Type} (l : List α) (i : Nat) (f : α → α) : Option (List α) :=
  if h : i < l.length then some (l.set i (f (l.get ⟨i, h⟩))) else none

/-- The mutable arrays and running totals of the parse routine. -/
structure ParseState where
  curves : List CubismMotionCurve
  segments : List CubismMotionSegment
  points : List CubismMotionPoint
  totalPointCount : Nat
  totalSegmentCount : Nat

/-- One trip of the inner segment loop of `parse`: the head-of-iteration
writes (first point and `basePointIndex`), the switch on the segment type
code — where an unrecognized code only triggers the no-op `CSM_ASSERT(0)` and
consumes nothing — and the trailing `segmentCount` / `totalSegmentCount`
increments.  Returns the new state and the next `segmentPosition`, or `none`
on an out-of-range array write. -/
def parseSegmentIteration (cardanoRoot : Rat → Rat → Rat → Rat → Rat)
    (areBeziersRestricted : Bool) (segs : List Rat) (curveIdx segmentPosition : Nat)
    (st : ParseState) : Option (ParseState × Nat) := do
  let head ←
    if segmentPosition = 0 then do
      let segments1 ← setAt st.segments st.totalSegmentCount
        (fun s => { s with basePointIndex := st.totalPointCount })
      let points1 ← setAt st.points st.totalPointCount
        (fun p => { p with time := segs.getD segmentPosition 0,
                           value := segs.getD (segmentPosition + 1) 0 })
      pure ({ st with
                segments := segments1
                points := points1
                totalPointCount := st.totalPointCount + 1 },
        segmentPosition + 2)
    else do
      let segments1 ← setAt st.segments st.totalSegmentCount
        (fun s => { s with basePointIndex := st.totalPointCount - 1 })
      pure ({ st with segments := segments1 }, segmentPosition)
  let st1 := head.1
  let sp1 := head.2
  let code? := segs.get? sp1
  let body ←
    match code? with
    | some code =>
      if code = 0 then do
        let segments2 ← setAt st1.segments st1.totalSegmentCount
          (fun s => { s with segmentType := .Linear, evaluate := linearEvaluate })
        let points2 ← setAt st1.points st1.totalPointCount
          (fun p => { p with time := segs.getD (sp1 + 1) 0, value := segs.getD (sp1 + 2) 0 })
        pure ({ st1 with
                  segments := segments2
                  points := points2
                  totalPointCount := st1.totalPointCount + 1 },
          sp1 + 3)
      else if code = 1 then do
        let segments2 ← setAt st1.segments st1.totalSegmentCount
          (fun s => { s with
            segmentType := .Bezier
            evaluate := if areBeziersRestricted = true ∨ UseOldBeziersCurveMotion = true
              then bezierEvaluate else bezierEvaluateCardanoInterpretation cardanoRoot })
        let points2 ← setAt st1.points st1.totalPointCount
          (fun p => { p with time := segs.getD (sp1 + 1) 0, value := segs.getD (sp1 + 2) 0 })
        let points3 ← setAt points2 (st1.totalPointCount + 1)
          (fun p => { p with time := segs.getD (sp1 + 3) 0, value := segs.getD (sp1 + 4) 0 })
        let points4 ← setAt points3 (st1.totalPointCount + 2)
          (fun p => { p with time := segs.getD (sp1 + 5) 0, value := segs.getD (sp1 + 6) 0 })
        pure ({ st1 with
                  segments := segments2
                  points := points4
                  totalPointCount := st1.totalPointCount + 3 },
          sp1 + 7)
      else if code = 2 then do
        let segments2 ← setAt st1.segments st1.totalSegmentCount
          (fun s => { s with segmentType := .Stepped, evaluate := steppedEvaluate })
        let points2 ← setAt st1.points st1.totalPointCount
          (fun p => { p with time := segs.getD (sp1 + 1) 0, value := segs.getD (sp1 + 2) 0 })
        pure ({ st1 with
                  segments := segments2
                  points := points2
                  totalPointCount := st1.totalPointCount + 1 },
          sp1 + 3)
      else if code = 3 then do
        let segments2 ← setAt st1.segments st1.totalSegmentCount
          (fun s => { s with segmentType := .InverseStepped, evaluate := inverseSteppedEvaluate })
        let points2 ← setAt st1.points st1.totalPointCount
          (fun p => { p with time := segs.getD (sp1 + 1) 0, value := segs.getD (sp1 + 2) 0 })
        pure ({ st1 with
                  segments := segments2
                  points := points2
                  totalPointCount := st1.totalPointCount + 1 },
          sp1 + 3)
      else
        pure (st1, sp1)
    | none =>
      pure (st1, sp1)
  let st2 := body.1
  let sp2 := body.2
  let curves1 ← setAt st2.curves curveIdx (fun cu => { cu with segmentCount := cu.segmentCount + 1 })
  pure ({ st2 with curves := curves1, totalSegmentCount := st2.totalSegmentCount + 1 }, sp2)

/-- The inner segment loop of `parse`
(`for (let segmentPosition = 0; segmentPosition < curve.Segments.length; )`).
The loop only advances `segmentPosition` inside the recognized switch cases,
so fuel exhaustion (`spin`) models a non-terminating run. -/
def parseSegmentsLoop (cardanoRoot : Rat → Rat → Rat → Rat → Rat)
    (areBeziersRestricted : Bool) (segs : List Rat) (curveIdx : Nat) :
    Nat → Nat → ParseState → ParseStatus ParseState
  | 0, _, _ => .spin
  | fuel + 1, segmentPosition, st =>
    if segmentPosition < segs.length then
      match parseSegmentIteration cardanoRoot areBeziersRestricted segs curveIdx
          segmentPosition st with
      | none => .crash
      | some next =>
        parseSegmentsLoop cardanoRoot areBeziersRestricted segs curveIdx fuel next.2 next.1
    else .ok st

/-- The outer curve loop of `parse`, processing `remaining` more curves
starting at `curveIdx`.  Reading `json.Curves[curveCount]` past the provided
array yields `undefined`, whose `.Target` access throws (`crash`); an
unmatched `Target` string only logs a warning and leaves the allocated
curve's default type.  The per-curve fuel
`segments.length + totalSegmentCount + 2` exceeds the largest possible trip
count of the inner loop (each trip either consumes stream positions or, for
an unrecognized code, increments `totalSegmentCount` until the next write is
out of range). -/
def parseCurvesLoop (cardanoRoot : Rat → Rat → Rat → Rat → Rat) (j : MotionJson) :
    Nat → Nat → ParseState → ParseStatus ParseState
  | 0, _, st => .ok st
  | remaining + 1, curveIdx, st =>
    match j.curves.get? curveIdx with
    | none => .crash
    | some jc =>
      let ctype? : Option CubismMotionCurveTarget :=
        if jc.target = TargetNameModel then some .Model
        else if jc.target = TargetNameParameter then some .Parameter
        else if jc.target = TargetNamePartOpacity then some .PartOpacity
        else none
      match setAt st.curves curveIdx (fun cu =>
        { cu with
            type := ctype?.getD cu.type
            id := jc.id
            baseSegmentIndex := st.totalSegmentCount
            fadeInTime := jc.fadeInTime.getD (-1)
            fadeOutTime := jc.fadeOutTime.getD (-1) }) with
      | none => .crash
      | some curves1 =>
        match parseSegmentsLoop cardanoRoot j.meta.areBeziersRestricted jc.segments curveIdx
            (jc.segments.length + j.meta.totalSegmentCount + 2) 0
            { st with curves := curves1 } with
        | .crash => .crash
        | .spin => .spin
        | .ok st1 => parseCurvesLoop cardanoRoot j remaining (curveIdx + 1) st1

/-- The `UserData` loop of `parse`: reading `json.UserData[u]` past the
provided array throws. -/
def parseUserDataLoop (uds : List MotionJsonUserData) :
    Nat → Nat → List CubismMotionEvent → Option (List CubismMotionEvent)
  | 0, _, events => some events
  | remaining + 1, u, events =>
    match uds.get? u with
    | none => none
    | some ud =>
      match setAt events u (fun ev => { ev with fireTime := ud.time, value := ud.value }) with
      | none => none
      | some events1 => parseUserDataLoop uds remaining (u + 1) events1

/-- Source `CubismOverrideMotion.parse`.  A falsy `JSON.parse` result (`none`)
returns early with `_motionData` untouched; otherwise the flat arrays are
allocated at the sizes declared in `Meta` and filled by the curve loop.  The
`shouldCheckMotionConsistency` parameter of the source is unused by its body
and omitted.  On `crash` the source leaves partially filled data on the
instance, but the exception propagates out of `create`, so no caller observes
it. -/
def parse (cardanoRoot : Rat → Rat → Rat → Rat → Rat) (motion : CubismOverrideMotion)
    (json : Option MotionJson) : ParseStatus CubismOverrideMotion :=
  match json with
  | none => .ok motion
  | some j =>
    let fadeInSeconds := match j.meta.fadeInTime with
      | some v => if v < 0 then 1 else v
      | none => 1
    let fadeOutSeconds := match j.meta.fadeOutTime with
      | some v => if v < 0 then 1 else v
      | none => 1
    let st0 : ParseState :=
      { curves := List.replicate j.meta.curveCount default
        segments := List.replicate j.meta.totalSegmentCount default
        points := List.replicate j.meta.totalPointCount default
        totalPointCount := 0
        totalSegmentCount := 0 }
    match parseCurvesLoop cardanoRoot j j.meta.curveCount 0 st0 with
    | .crash => .crash
    | .spin => .spin
    | .ok st =>
      let events0 : List CubismMotionEvent := List.replicate j.meta.userDataCount default
      let events? := match j.userData with
        | some uds => parseUserDataLoop uds j.meta.userDataCount 0 events0
        | none => some events0
      match events? with
      | none => .crash
      | some events =>
        .ok { motion with
          motionData := some
            { duration := j.meta.duration
              loop := j.meta.loop
              curveCount := j.meta.curveCount
              fps := j.meta.fps
              eventCount := j.meta.userDataCount
              curves := st.curves
              segments := st.segments
              points := st.points
              events := events }
          fadeInSeconds := fadeInSeconds
          fadeOutSeconds := fadeOutSeconds }

/-- Observable outcome of `CubismOverrideMotion.create`: a motion instance, a
`null` return, an uncaught exception, or a non-terminating run. -/
inductive CreateResult where
  | created (motion : CubismOverrideMotion)
  | nullResult
  | crash
  | spin

/-- Whether a `CreateResult` is the uncaught-exception outcome. -/
def CreateResult.isCrash : CreateResult → Bool
  | .crash => true
  | _ => false

/-- Whether a `CreateResult` is the `null` return. -/
def CreateResult.isNull : CreateResult → Bool
  | .nullResult => true
  | _ => false

/-- Source `CubismOverrideMotion.create`: construct a fresh instance, parse,
and return `null` exactly when `_motionData` is still null afterwards. -/
def create (cardanoRoot : Rat → Rat → Rat → Rat → Rat) (json : Option MotionJson)
    (onFinishedPresent : Bool) : CreateResult :=
  let ret : CubismOverrideMotion := {}
  match parse cardanoRoot ret json with
  | .crash => .crash
  | .spin => .spin
  | .ok ret1 =>
    match ret1.motionData with
    | some md =>
      .created { ret1 with
        sourceFrameRate := md.fps
        loopDurationSeconds := md.duration
        onFinishedPresent := onFinishedPresent }
    | none => .nullResult

/-- Concrete malformed asset for claim C1: a single Parameter curve whose
segment stream `[0, 0, 99, 1, 1]` starts with the leading point (0,0) and
then an unrecognized segment type code 99.  All `Meta` counts are consistent
with the one Linear-sized segment the stream would declare. -/
def badJsonC1 : MotionJson :=
  { meta := { duration := 1, fps := 30, loop := false, curveCount := 1,
              totalSegmentCount := 1, totalPointCount := 2, userDataCount := 0,
              areBeziersRestricted := false }
    curves := [{ target := "Parameter", id := "P", segments := [0, 0, 99, 1, 1] }]
    userData := none }

/-- Any concrete stand-in for the external Cardano root solve (never reached
on `badJsonC1`). -/
def cardanoZero : Rat → Rat → Rat → Rat → Rat := fun _ _ _ _ => 0

/-- Concrete single-curve motion for claim C3's witness: one Linear segment
from (0,2) to (1,5). -/
def exMdC3 : CubismMotionData :=
  { duration := 1
    curveCount := 1
    fps := 30
    curves := [{ type := .Parameter, id := "Q", segmentCount := 1, baseSegmentIndex := 0,
                 fadeInTime := -1, fadeOutTime := -1 }]
    segments := [{ basePointIndex := 0, segmentType := .Linear, evaluate := linearEvaluate }]
    points := [{ time := 0, value := 2 }, { time := 1, value := 5 }] }

/-- First index at or after `i` whose id equals `name` (the search order of
the source's index loops). -/
def firstIdxFrom? (ids : List String) (name : String) (i : Nat) : Option Nat :=
  if h : i < ids.length then
    if ids.getD i "" = name then some i else firstIdxFrom? ids name (i + 1)
  else none
termination_by ids.length - i
decreasing_by omega

/-- Concrete one-event motion data for claim C9's witness: a single event at
fire time 3/2 with payload "ev". -/
def exMdC9 : CubismMotionData :=
  { duration := 2, fps := 30, eventCount := 1
    events := [{ fireTime := 3/2, value := "ev" }] }

/-- Motion holding `exMdC9`. -/
def exMotionC9 : CubismOverrideMotion := { motionData := some exMdC9 }

/-- Concrete curve-free motion data (duration 2) for claim C4's witness. -/
def exMdC4 : CubismMotionData := { duration := 2, fps := 30, curveCount := 0 }

/-- Non-looping motion over `exMdC4` with a registered finished callback. -/
def exMotionC4 : CubismOverrideMotion :=
  { motionData := some exMdC4, isLoop := false, loopDurationSeconds := 2
    onFinishedPresent := true }

/-- Concrete curve-free motion data (duration 1, 30 fps) for claims C8/C10. -/
def exMdC8 : CubismMotionData := { duration := 1, fps := 30, curveCount := 0 }

/-- Looping legacy-behavior motion over `exMdC8` with loop fade-in disabled
(the configuration separating claim C8 from the source). -/
def exMotionC8 : CubismOverrideMotion :=
  { motionData := some exMdC8, motionBehavior := .MotionBehavior_V1, isLoop := true
    isLoopFadeIn := false, loopDurationSeconds := 1, onFinishedPresent := true }

/-- Looping current-behavior motion over `exMdC8` (for claim C10's witness). -/
def exMotionC10 : CubismOverrideMotion :=
  { motionData := some exMdC8, motionBehavior := .MotionBehavior_V2, isLoop := true
    previousLoopState := true, loopDurationSeconds := 1, onFinishedPresent := true }

/-- Queue entry with a fade-in start time distinguishable from the current
time (for claim C8). -/
def exEntryC8 : CubismMotionQueueEntry := { startTime := 0, fadeInStartTime := 7, endTime := -1 }

/-- Claim C9's reading of the event query: the payloads of exactly the
motion's events (indices below `eventCount`, in stored order) whose fire time
lies in `(a, b]`. -/
def firedEventsClaimC9 (md : CubismMotionData) (a b : Rat) : List String :=
  ((List.range md.eventCount).filter
    (fun u => decide (a < (md.eventsAt u).fireTime) && decide ((md.eventsAt u).fireTime ≤ b))).map
    (fun u => (md.eventsAt u).value)

/-- Motion over `exMdC3` for claim C5's witness. -/
def exMotionC5 : CubismOverrideMotion :=
  { motionData := some exMdC3, loopDurationSeconds := 1 }

/-- Model resolving the parameter "Q" (for claim C5's witness). -/
def exModelC5 : ModelView := { parameterIds := [("Q")] }

/-- Eye-blink target list for claim C6's counterexample: 33 entries, with
"PA" at position 0 and "PB" at position 32 (a position JavaScript's 32-bit
shifts alias onto bit 0). -/
def exEbIdsC6 : List String := ("PA") :: (List.replicate 31 ("PX") ++ [("PB")])

/-- Motion data for claim C6's counterexample: a Model "EyeBlink" curve of
constant value 1/2 followed by a Parameter curve targeting "PB" (constant
value 2). -/
def exMdC6 : CubismMotionData :=
  { duration := 1
    curveCount := 2
    fps := 30
    curves := [{ type := .Model, id := "EyeBlink", segmentCount := 1, baseSegmentIndex := 0,
                 fadeInTime := -1, fadeOutTime := -1 },
               { type := .Parameter, id := "PB", segmentCount := 1, baseSegmentIndex := 1,
                 fadeInTime := -1, fadeOutTime := -1 }]
    segments := [{ basePointIndex := 0, segmentType := .Linear, evaluate := linearEvaluate },
                 { basePointIndex := 2, segmentType := .Linear, evaluate := linearEvaluate }]
    points := [{ time := 0, value := 1/2 }, { time := 1, value := 1/2 },
               { time := 0, value := 2 }, { time := 1, value := 2 }] }

/-- Motion over `exMdC6` whose eye-blink target list is `exEbIdsC6`. -/
def exMotionC6 : CubismOverrideMotion :=
  { motionData := some exMdC6, loopDurationSeconds := 1
    eyeBlinkParameterIds := some exEbIdsC6 }

/-- Model resolving the parameter "PB" (claim C6's counterexample). -/
def exModelC6 : ModelView := { parameterIds := [("PB")] }

/-- Motion data for claim C6's amended witness: Model "EyeBlink" (value 1/2)
and "LipSync" (value 3/10) curves, then a Parameter curve targeting "P1"
(value 2). -/
def exMdC6w : CubismMotionData :=
  { duration := 1
    curveCount := 3
    fps := 30
    curves := [{ type := .Model, id := "EyeBlink", segmentCount := 1, baseSegmentIndex := 0,
                 fadeInTime := -1, fadeOutTime := -1 },
               { type := .Model, id := "LipSync", segmentCount := 1, baseSegmentIndex := 1,
                 fadeInTime := -1, fadeOutTime := -1 },
               { type := .Parameter, id := "P1", segmentCount := 1, baseSegmentIndex := 2,
                 fadeInTime := -1, fadeOutTime := -1 }]
    segments := [{ basePointIndex := 0, segmentType := .Linear, evaluate := linearEvaluate },
                 { basePointIndex := 2, segmentType := .Linear, evaluate := linearEvaluate },
                 { basePointIndex := 4, segmentType := .Linear, evaluate := linearEvaluate }]
    points := [{ time := 0, value := 1/2 }, { time := 1, value := 1/2 },
               { time := 0, value := 3/10 }, { time := 1, value := 3/10 },
               { time := 0, value := 2 }, { time := 1, value := 2 }] }

/-- Motion over `exMdC6w` with two eye-blink targets ("P0" unclaimed, "P1"
claimed by the Parameter curve) and one lip-sync target ("M0", unclaimed). -/
def exMotionC6w : CubismOverrideMotion :=
  { motionData := some exMdC6w, loopDurationSeconds := 1
    eyeBlinkParameterIds := some [("P0"), ("P1")]
    lipSyncParameterIds := some [("M0")] }

/-- Model resolving the parameter "P1" (claim C6's amended witness). -/
def exModelC6w : ModelView := { parameterIds := [("P1")] }

/-- Motion data for claim C7: a single Model "LipSync" curve of constant
value 3/10. -/
def exMdC7 : CubismMotionData :=
  { duration := 1
    curveCount := 1
    fps := 30
    curves := [{ type := .Model, id := "LipSync", segmentCount := 1, baseSegmentIndex := 0,
                 fadeInTime := -1, fadeOutTime := -1 }]
    segments := [{ basePointIndex := 0, segmentType := .Linear, evaluate := linearEvaluate }]
    points := [{ time := 0, value := 3/10 }, { time := 1, value := 3/10 }] }

/-- Motion over `exMdC7` configured additive for lip sync and override for
eye blink (the configuration separating claim C7 from the source). -/
def exMotionC7 : CubismOverrideMotion :=
  { motionData := some exMdC7, loopDurationSeconds := 1
    lipSyncParameterIds := some [("PMouth")]
    lipSyncAdditive := true, eyeBlinkAdditive := false }

/-! Theorems.  Everything below this point is a statement about the
definitions above; no new model definitions are introduced. -/

/-- The scan loop of `evaluateCurve` equals a first-match search over the
segment range: it returns the first segment whose end-position point lies
strictly after `time`, and otherwise reports the end position of the last
scanned segment (or the unchanged seed `pp` when the range is empty). -/
theorem evaluateCurveScan_eq_find (md : CubismMotionData) (time : Rat)
    (i stop pp : Nat) :
    evaluateCurveScan md time i stop pp =
      match (List.range' i (stop - i)).find?
          (fun j => decide (time < (md.pointsAt (segmentEndPosition md j)).time)) with
      | some j => (some j, segmentEndPosition md j)
      | none => (none, if i < stop then segmentEndPosition md (stop - 1) else pp) := by
  generalize hn : stop - i = n
  induction n generalizing i pp with
  | zero =>
    have hsi : ¬ i < stop := by omega
    unfold evaluateCurveScan
    simp [hsi, List.range']
  | succ n ih =>
    have his : i < stop := by omega
    have hstep : evaluateCurveScan md time i stop pp =
        if time < (md.pointsAt (segmentEndPosition md i)).time
        then (some i, segmentEndPosition md i)
        else evaluateCurveScan md time (i + 1) stop (segmentEndPosition md i) := by
      conv_lhs => unfold evaluateCurveScan
      simp [his]
    rw [hstep, List.range'_succ, List.find?_cons]
    by_cases hp : time < (md.pointsAt (segmentEndPosition md i)).time
    · simp [hp]
    · rw [if_neg hp]
      have hih := ih (i + 1) (segmentEndPosition md i) (by omega)
      rw [hih]
      have hdp : (decide (time < (md.pointsAt (segmentEndPosition md i)).time)) = false := by
        simpa using hp
      rw [hdp]
      simp only [Bool.false_eq_true, if_false]
      rcases hfind : (List.range' (i + 1) n).find?
          (fun j => decide (time < (md.pointsAt (segmentEndPosition md j)).time)) with _ | j
      · simp only []
        by_cases hi1 : i + 1 < stop
        · simp [hi1, his]
        · have hieq : i = stop - 1 := by omega
          have h0 : 0 < stop := by omega
          simp [hi1, his, hieq, h0]
      · simp

/-- Claim C2, counterexample: on `exMdC2` (a legal monotone one-segment Bezier
curve) at query time 17/10, the source evaluates the Bezier segment (its 4th
point's time 2 exceeds 17/10), while the claim's scan point — the 3rd of the
4 points, at time 3/2 — does not exceed 17/10, so the claim prescribes holding
the last stored value 1 instead.  The two disagree. -/
theorem claimC2_counterexample :
    evaluateCurve exMdC2 0 (17/10) false 0 ≠ evaluateCurveClaimC2 exMdC2 0 (17/10) := by
  with_unfolding_all decide

/-- Claim C2 as amended: for every curve with at least one segment and every
query time, `evaluateCurve` without end-point correction returns the
evaluation (with the segment's own control points) of the first segment, in
curve order, whose final stored point's time — the 4th of 4 points for a
Bezier segment, otherwise the 2nd point — strictly exceeds the query time;
if no segment qualifies, it returns the last stored point's value, held
constant. -/
theorem claimC2_amended (md : CubismMotionData) (index : Nat) (time endTime : Rat)
    (hseg : 1 ≤ (md.curvesAt index).segmentCount) :
    evaluateCurve md index time false endTime = evaluateCurveSpecC2 md index time := by
  have hfind := evaluateCurveScan_eq_find md time (md.curvesAt index).baseSegmentIndex
    ((md.curvesAt index).baseSegmentIndex + (md.curvesAt index).segmentCount) 0
  have hcnt : (md.curvesAt index).baseSegmentIndex + (md.curvesAt index).segmentCount -
      (md.curvesAt index).baseSegmentIndex = (md.curvesAt index).segmentCount := by omega
  rw [hcnt] at hfind
  simp only [evaluateCurve, evaluateCurveSpecC2]
  rw [hfind]
  cases hf : (List.range' (md.curvesAt index).baseSegmentIndex
      (md.curvesAt index).segmentCount).find?
      (fun j => decide (time < (md.pointsAt (segmentEndPosition md j)).time)) with
  | none =>
    have hlt : (md.curvesAt index).baseSegmentIndex <
        (md.curvesAt index).baseSegmentIndex + (md.curvesAt index).segmentCount := by omega
    simp [hlt, curveLastPointIndex, curveLastSegmentIndex]
  | some j => rfl

/-- Witness for the amended claim C2 at a concrete input: `exMdC2` has one
segment, and the source evaluation agrees with the amended scan description. -/
theorem claimC2_amended_witness :
    1 ≤ (exMdC2.curvesAt 0).segmentCount ∧
      evaluateCurve exMdC2 0 (17/10) false 0 = evaluateCurveSpecC2 exMdC2 0 (17/10) :=
  ⟨by decide, claimC2_amended exMdC2 0 (17/10) 0 (by decide)⟩

/-- Claim C3: whenever the scan finds no qualifying segment, loop correction
is requested and the query time is strictly below `endTime`, `evaluateCurve`
returns the evaluation of the synthesized two-point blend whose first point
is the curve's last stored point at its own time and whose second point
carries the curve's first point's value placed at `endTime`, evaluated with
the last segment's type, a Bezier last segment degrading to Linear. -/
theorem claimC3 (md : CubismMotionData) (index : Nat) (time endTime : Rat)
    (hseg : 1 ≤ (md.curvesAt index).segmentCount)
    (hnone : (evaluateCurveScan md time (md.curvesAt index).baseSegmentIndex
      ((md.curvesAt index).baseSegmentIndex + (md.curvesAt index).segmentCount) 0).1 = none)
    (htime : time < endTime) :
    evaluateCurve md index time true endTime = endPointCorrectionClaimC3 md index time endTime := by
  have hfind := evaluateCurveScan_eq_find md time (md.curvesAt index).baseSegmentIndex
    ((md.curvesAt index).baseSegmentIndex + (md.curvesAt index).segmentCount) 0
  have hcnt : (md.curvesAt index).baseSegmentIndex + (md.curvesAt index).segmentCount -
      (md.curvesAt index).baseSegmentIndex = (md.curvesAt index).segmentCount := by omega
  rw [hcnt] at hfind
  simp only [evaluateCurve]
  rw [hfind]
  cases hf : (List.range' (md.curvesAt index).baseSegmentIndex
      (md.curvesAt index).segmentCount).find?
      (fun j => decide (time < (md.pointsAt (segmentEndPosition md j)).time)) with
  | none =>
    have hlt : (md.curvesAt index).baseSegmentIndex <
        (md.curvesAt index).baseSegmentIndex + (md.curvesAt index).segmentCount := by omega
    simp only [hlt, if_true, if_pos]
    rw [if_pos (show True ∧ time < endTime from ⟨trivial, htime⟩)]
    simp only [correctEndPoint, endPointCorrectionClaimC3, curveLastPointIndex,
      curveLastSegmentIndex]
    cases (md.segmentsAt ((md.curvesAt index).baseSegmentIndex +
        (md.curvesAt index).segmentCount - 1)).segmentType <;> rfl
  | some j =>
    rw [hfind, hf] at hnone
    simp at hnone

/-- Witness for claim C3 at a concrete input: on `exMdC3` (Linear curve from
(0,2) to (1,5)) at time 3/2 with loop end time 2, no segment qualifies and
the corrected value is the blend from (1,5) to (2,2) at 3/2, namely 7/2. -/
theorem claimC3_witness :
    1 ≤ (exMdC3.curvesAt 0).segmentCount ∧
    (evaluateCurveScan exMdC3 (3/2) (exMdC3.curvesAt 0).baseSegmentIndex
      ((exMdC3.curvesAt 0).baseSegmentIndex + (exMdC3.curvesAt 0).segmentCount) 0).1 = none ∧
    (3/2 : Rat) < 2 ∧
    evaluateCurve exMdC3 0 (3/2) true 2 = endPointCorrectionClaimC3 exMdC3 0 (3/2) 2 ∧
    evaluateCurve exMdC3 0 (3/2) true 2 = 7/2 :=
  ⟨by decide, by with_unfolding_all decide, by with_unfolding_all decide,
    claimC3 exMdC3 0 (3/2) 2 (by decide) (by with_unfolding_all decide)
      (by with_unfolding_all decide),
    by with_unfolding_all decide⟩

/-- Claim C1 (code bug), evaluated at the failing input: on `badJsonC1`, whose
segment stream carries the unrecognized type code 99, `create` does not
return null.  The parse loop re-reads the unrecognized code without advancing
(`CSM_ASSERT(0)` is non-throwing), increments the running segment total each
trip, and crashes writing past the allocated segment array; the exception
propagates out of `create`. -/
theorem claimC1_eval :
    (create cardanoZero (some badJsonC1) false).isCrash = true ∧
    (create cardanoZero (some badJsonC1) false).isNull = false := by
  with_unfolding_all decide

/-- The event-scan loop collects, in order, exactly the indices in
`[u, eventCount)` whose event's fire time lies in `(before, motionTime]`. -/
theorem getFiredEventLoop_eq (md : CubismMotionData) (before motionTime : Rat)
    (u : Nat) (acc : List String) :
    getFiredEventLoop md before motionTime u acc =
      acc ++ ((List.range' u (md.eventCount - u)).filter
        (fun i => decide (before < (md.eventsAt i).fireTime) &&
          decide ((md.eventsAt i).fireTime ≤ motionTime))).map
        (fun i => (md.eventsAt i).value) := by
  generalize hn : md.eventCount - u = n
  induction n generalizing u acc with
  | zero =>
    have hu : ¬ u < md.eventCount := by omega
    unfold getFiredEventLoop
    simp [hu, List.range']
  | succ n ih =>
    have hu : u < md.eventCount := by omega
    have hstep : getFiredEventLoop md before motionTime u acc =
        if before < (md.eventsAt u).fireTime ∧ (md.eventsAt u).fireTime ≤ motionTime
        then getFiredEventLoop md before motionTime (u + 1) (acc ++ [(md.eventsAt u).value])
        else getFiredEventLoop md before motionTime (u + 1) acc := by
      conv_lhs => unfold getFiredEventLoop
      simp [hu]
    rw [hstep, List.range'_succ, List.filter_cons]
    simp only [Bool.and_eq_true, decide_eq_true_eq]
    have hn1 : md.eventCount - (u + 1) = n := by omega
    by_cases hc : before < (md.eventsAt u).fireTime ∧ (md.eventsAt u).fireTime ≤ motionTime
    · rw [if_pos hc, if_pos hc, ih (u + 1) (acc ++ [(md.eventsAt u).value]) hn1]
      simp
    · rw [if_neg hc, if_neg hc, ih (u + 1) acc hn1]

/-- Claim C9: `getFiredEvent` returns exactly the payloads of the motion's
events whose fire time t satisfies `a < t ≤ b`, in stored order; and for any
two calls over adjoining intervals `(a, b]` then `(b, c]`, no event satisfies
both window conditions. -/
theorem claimC9 (motion : CubismOverrideMotion) (md : CubismMotionData) (a b c : Rat)
    (hmd : motion.motionData = some md) :
    getFiredEvent motion a b = firedEventsClaimC9 md a b ∧
    ∀ i, i < md.eventCount →
      ¬ ((a < (md.eventsAt i).fireTime ∧ (md.eventsAt i).fireTime ≤ b) ∧
         (b < (md.eventsAt i).fireTime ∧ (md.eventsAt i).fireTime ≤ c)) := by
  constructor
  · simp only [getFiredEvent, hmd]
    rw [getFiredEventLoop_eq]
    unfold firedEventsClaimC9
    rw [List.range_eq_range']
    simp
  · rintro i - ⟨⟨-, h2⟩, ⟨h3, -⟩⟩
    exact absurd (lt_of_le_of_lt h2 h3) (lt_irrefl _)

/-- Witness for claim C9 at a concrete input: the motion with one event at
3/2 returns it for the window (7/5, 8/5] — and indeed the returned list is
["ev"] — while no event can satisfy both that window and (8/5, 9/5]. -/
theorem claimC9_witness :
    exMotionC9.motionData = some exMdC9 ∧
    getFiredEvent exMotionC9 (7/5) (8/5) = firedEventsClaimC9 exMdC9 (7/5) (8/5) ∧
    getFiredEvent exMotionC9 (7/5) (8/5) = ["ev"] ∧
    (∀ i, i < exMdC9.eventCount →
      ¬ (((7/5 : Rat) < (exMdC9.eventsAt i).fireTime ∧ (exMdC9.eventsAt i).fireTime ≤ 8/5) ∧
         ((8/5 : Rat) < (exMdC9.eventsAt i).fireTime ∧ (exMdC9.eventsAt i).fireTime ≤ 9/5))) :=
  ⟨rfl, (claimC9 exMotionC9 exMdC9 (7/5) (8/5) (9/5) rfl).1,
    by with_unfolding_all decide,
    (claimC9 exMotionC9 exMdC9 (7/5) (8/5) (9/5) rfl).2⟩

/-- Helper: `adjustEndTime` leaves the finished flag unchanged. -/
theorem adjustEndTime_isFinished (m : CubismOverrideMotion) (e : CubismMotionQueueEntry) :
    (adjustEndTime m e).isFinished = e.isFinished := rfl

/-- Helper: `adjustEndTime` leaves the start time unchanged. -/
theorem adjustEndTime_startTime (m : CubismOverrideMotion) (e : CubismMotionQueueEntry) :
    (adjustEndTime m e).startTime = e.startTime := rfl

/-- Helper: `adjustEndTime` leaves the fade-in start time unchanged. -/
theorem adjustEndTime_fadeInStartTime (m : CubismOverrideMotion) (e : CubismMotionQueueEntry) :
    (adjustEndTime m e).fadeInStartTime = e.fadeInStartTime := rfl

/-- Helper: `updateForNextLoop` never touches the finished flag. -/
theorem updateForNextLoop_isFinished (m : CubismOverrideMotion) (e : CubismMotionQueueEntry)
    (u t : Rat) : (updateForNextLoop m e u t).1.isFinished = e.isFinished := by
  unfold updateForNextLoop
  cases m.motionBehavior <;> rfl

/-- Helper: the loop/completion tail of `doUpdateParameters` — the updated
entry and the callback-invoked flag are computed from the (possibly
end-time-adjusted) entry, the behavior-adjusted duration and the reduced
sampling time exactly as the source's closing block does. -/
theorem doUpdateParameters_finish (motion : CubismOverrideMotion) (model : ModelView)
    (es : Rat → Rat) (userTimeSeconds fadeWeight : Rat) (entryIn : CubismMotionQueueEntry)
    (md : CubismMotionData) (hmd : motion.motionData = some md) :
    ((doUpdateParameters motion model es userTimeSeconds fadeWeight entryIn).entry,
     (doUpdateParameters motion model es userTimeSeconds fadeWeight entryIn).finishedInvoked) =
      (if adjustedDuration motion md ≤
          timeOffsetOf userTimeSeconds (entryAfterAdjust motion entryIn) then
        if motion.isLoop then
          updateForNextLoop motion (entryAfterAdjust motion entryIn) userTimeSeconds
            (sampleTimeOf motion md userTimeSeconds (entryAfterAdjust motion entryIn))
        else ({ entryAfterAdjust motion entryIn with isFinished := true },
          motion.onFinishedPresent)
      else (entryAfterAdjust motion entryIn, false)) := by
  simp only [doUpdateParameters, hmd]

/-- Helper: the start time of the possibly end-time-adjusted entry. -/
theorem entryAfterAdjust_startTime (m : CubismOverrideMotion) (e : CubismMotionQueueEntry) :
    (entryAfterAdjust m e).startTime = e.startTime := by
  unfold entryAfterAdjust
  split <;> rfl

/-- Helper: the fade-in start time of the possibly end-time-adjusted entry. -/
theorem entryAfterAdjust_fadeInStartTime (m : CubismOverrideMotion)
    (e : CubismMotionQueueEntry) :
    (entryAfterAdjust m e).fadeInStartTime = e.fadeInStartTime := by
  unfold entryAfterAdjust
  split <;> rfl

/-- Helper: the finished flag of the possibly end-time-adjusted entry. -/
theorem entryAfterAdjust_isFinished (m : CubismOverrideMotion) (e : CubismMotionQueueEntry) :
    (entryAfterAdjust m e).isFinished = e.isFinished := by
  unfold entryAfterAdjust
  split <;> rfl

/-- Claim C4: for a non-looping motion, a `doUpdateParameters` call whose
clamped elapsed time reaches the motion's duration sets the entry's finished
flag and invokes the registered finished-motion callback, while a call whose
elapsed time is below the duration does neither. -/
theorem claimC4 (motion : CubismOverrideMotion) (model : ModelView) (es : Rat → Rat)
    (userTimeSeconds fadeWeight : Rat) (entryIn : CubismMotionQueueEntry)
    (md : CubismMotionData) (hmd : motion.motionData = some md)
    (hloop : motion.isLoop = false) (hcb : motion.onFinishedPresent = true) :
    (md.duration ≤ max 0 (userTimeSeconds - entryIn.startTime) →
      (doUpdateParameters motion model es userTimeSeconds fadeWeight entryIn).entry.isFinished
          = true ∧
      (doUpdateParameters motion model es userTimeSeconds fadeWeight entryIn).finishedInvoked
          = true) ∧
    (max 0 (userTimeSeconds - entryIn.startTime) < md.duration →
      (doUpdateParameters motion model es userTimeSeconds fadeWeight entryIn).entry.isFinished
          = entryIn.isFinished ∧
      (doUpdateParameters motion model es userTimeSeconds fadeWeight entryIn).finishedInvoked
          = false) := by
  have hfin := doUpdateParameters_finish motion model es userTimeSeconds fadeWeight entryIn md hmd
  simp only [adjustedDuration, timeOffsetOf, entryAfterAdjust_startTime, hloop,
    Bool.false_eq_true, false_and, if_false, ite_false] at hfin
  have h1 := congrArg Prod.fst hfin
  have h2 := congrArg Prod.snd hfin
  simp only [] at h1 h2
  constructor <;> intro h
  · rw [if_pos h] at h1 h2
    rw [h1, h2, hcb]
    exact ⟨rfl, rfl⟩
  · rw [if_neg (not_le.mpr h)] at h1 h2
    rw [h1, h2]
    exact ⟨entryAfterAdjust_isFinished _ _, rfl⟩

/-- Witness for claim C4 at a concrete input: the non-looping 2-second motion
is finished (flag set, callback invoked) at time 5, and untouched at time 1. -/
theorem claimC4_witness :
    ((2 : Rat) ≤ max 0 (5 - ({} : CubismMotionQueueEntry).startTime) ∧
      (doUpdateParameters exMotionC4 {} (fun x => x) 5 1 {}).entry.isFinished = true ∧
      (doUpdateParameters exMotionC4 {} (fun x => x) 5 1 {}).finishedInvoked = true) ∧
    (max 0 ((1 : Rat) - ({} : CubismMotionQueueEntry).startTime) < 2 ∧
      (doUpdateParameters exMotionC4 {} (fun x => x) 1 1 {}).entry.isFinished
          = ({} : CubismMotionQueueEntry).isFinished ∧
      (doUpdateParameters exMotionC4 {} (fun x => x) 1 1 {}).finishedInvoked = false) :=
  ⟨⟨by with_unfolding_all decide,
    (claimC4 exMotionC4 {} (fun x => x) 5 1 {} exMdC4 rfl rfl rfl).1
      (by with_unfolding_all decide)⟩,
   ⟨by with_unfolding_all decide,
    (claimC4 exMotionC4 {} (fun x => x) 1 1 {} exMdC4 rfl rfl rfl).2
      (by with_unfolding_all decide)⟩⟩

/-- Claim C10: a looping motion never has its finished flag set by
`doUpdateParameters`; a loop wrap (elapsed time at or past the adjusted
duration) invokes the registered finished-motion callback exactly under the
current behavior (V2), and no callback fires below the wrap threshold. -/
theorem claimC10 (motion : CubismOverrideMotion) (model : ModelView) (es : Rat → Rat)
    (userTimeSeconds fadeWeight : Rat) (entryIn : CubismMotionQueueEntry)
    (md : CubismMotionData) (hmd : motion.motionData = some md)
    (hloop : motion.isLoop = true) (hcb : motion.onFinishedPresent = true) :
    (doUpdateParameters motion model es userTimeSeconds fadeWeight entryIn).entry.isFinished
        = entryIn.isFinished ∧
    ((if motion.motionBehavior = MotionBehavior.MotionBehavior_V2
        then md.duration + 1 / md.fps else md.duration) ≤
          max 0 (userTimeSeconds - entryIn.startTime) →
      (motion.motionBehavior = MotionBehavior.MotionBehavior_V2 →
        (doUpdateParameters motion model es userTimeSeconds fadeWeight entryIn).finishedInvoked
            = true) ∧
      (motion.motionBehavior = MotionBehavior.MotionBehavior_V1 →
        (doUpdateParameters motion model es userTimeSeconds fadeWeight entryIn).finishedInvoked
            = false)) ∧
    (max 0 (userTimeSeconds - entryIn.startTime) <
        (if motion.motionBehavior = MotionBehavior.MotionBehavior_V2
          then md.duration + 1 / md.fps else md.duration) →
      (doUpdateParameters motion model es userTimeSeconds fadeWeight entryIn).finishedInvoked
          = false) := by
  have hfin := doUpdateParameters_finish motion model es userTimeSeconds fadeWeight entryIn md hmd
  simp only [adjustedDuration, timeOffsetOf, entryAfterAdjust_startTime, hloop,
    true_and, if_true, ite_true] at hfin
  have h1 := congrArg Prod.fst hfin
  have h2 := congrArg Prod.snd hfin
  simp only [] at h1 h2
  refine ⟨?_, fun h => ⟨fun h2v => ?_, fun h1v => ?_⟩, fun h => ?_⟩
  · by_cases h : (if motion.motionBehavior = MotionBehavior.MotionBehavior_V2
        then md.duration + 1 / md.fps else md.duration) ≤
        max 0 (userTimeSeconds - entryIn.startTime)
    · rw [if_pos h] at h1
      rw [h1, updateForNextLoop_isFinished]
      exact entryAfterAdjust_isFinished _ _
    · rw [if_neg h] at h1
      rw [h1]
      exact entryAfterAdjust_isFinished _ _
  · rw [if_pos h] at h2
    rw [h2]
    unfold updateForNextLoop
    rw [h2v]
    exact hcb
  · rw [if_pos h] at h2
    rw [h2]
    unfold updateForNextLoop
    rw [h1v]
  · rw [if_neg (not_le.mpr h)] at h2
    rw [h2]

/-- Claim C8, counterexample: under the legacy behavior (V1) with loop
fade-in disabled, a loop wrap at time 10 resets the start time to 10 but
leaves the fade-in start time at its old value 7 — the claim's "both the
start time and the fade-in start time are reset to the current time exactly"
fails for the fade-in start time. -/
theorem claimC8_counterexample :
    (doUpdateParameters exMotionC8 {} (fun x => x) 10 1 exEntryC8).entry.startTime = 10 ∧
    (doUpdateParameters exMotionC8 {} (fun x => x) 10 1 exEntryC8).entry.fadeInStartTime = 7 ∧
    ¬ (doUpdateParameters exMotionC8 {} (fun x => x) 10 1 exEntryC8).entry.fadeInStartTime
        = 10 := by
  with_unfolding_all decide

/-- Claim C8 as amended: when a looping motion's elapsed time reaches its
(behavior-adjusted) duration, under V2 the entry's start time is reset to the
current time minus the modulo-reduced sampling time and, when loop fade-in is
enabled, the fade-in start time is reset to that same rewound instant
(unchanged otherwise); under V1 the start time is reset to the current time
exactly, and the fade-in start time likewise exactly when loop fade-in is
enabled (unchanged otherwise). -/
theorem claimC8_amended (motion : CubismOverrideMotion) (model : ModelView) (es : Rat → Rat)
    (userTimeSeconds fadeWeight : Rat) (entryIn : CubismMotionQueueEntry)
    (md : CubismMotionData) (hmd : motion.motionData = some md)
    (hloop : motion.isLoop = true)
    (hwrap : (if motion.motionBehavior = MotionBehavior.MotionBehavior_V2
        then md.duration + 1 / md.fps else md.duration) ≤
      max 0 (userTimeSeconds - entryIn.startTime)) :
    (motion.motionBehavior = MotionBehavior.MotionBehavior_V2 →
      (doUpdateParameters motion model es userTimeSeconds fadeWeight entryIn).entry.startTime
          = userTimeSeconds - reduceLoopTime (max 0 (userTimeSeconds - entryIn.startTime))
              (md.duration + 1 / md.fps) ∧
      (motion.isLoopFadeIn = true →
        (doUpdateParameters motion model es userTimeSeconds fadeWeight
            entryIn).entry.fadeInStartTime
          = userTimeSeconds - reduceLoopTime (max 0 (userTimeSeconds - entryIn.startTime))
              (md.duration + 1 / md.fps)) ∧
      (motion.isLoopFadeIn = false →
        (doUpdateParameters motion model es userTimeSeconds fadeWeight
            entryIn).entry.fadeInStartTime = entryIn.fadeInStartTime)) ∧
    (motion.motionBehavior = MotionBehavior.MotionBehavior_V1 →
      (doUpdateParameters motion model es userTimeSeconds fadeWeight entryIn).entry.startTime
          = userTimeSeconds ∧
      (motion.isLoopFadeIn = true →
        (doUpdateParameters motion model es userTimeSeconds fadeWeight
            entryIn).entry.fadeInStartTime = userTimeSeconds) ∧
      (motion.isLoopFadeIn = false →
        (doUpdateParameters motion model es userTimeSeconds fadeWeight
            entryIn).entry.fadeInStartTime = entryIn.fadeInStartTime)) := by
  have hfin := doUpdateParameters_finish motion model es userTimeSeconds fadeWeight entryIn md hmd
  simp only [adjustedDuration, timeOffsetOf, sampleTimeOf, entryAfterAdjust_startTime, hloop,
    true_and, if_true, ite_true] at hfin
  have h1 := congrArg Prod.fst hfin
  simp only [] at h1
  rw [if_pos hwrap] at h1
  constructor <;> intro hbeh
  · rw [hbeh] at h1
    simp only [if_pos, if_true, ite_true] at h1
    rw [h1]
    unfold updateForNextLoop
    rw [hbeh]
    refine ⟨rfl, fun hly => ?_, fun hln => ?_⟩
    · simp only [hly, ite_true, if_true]
    · simp only [hln, Bool.false_eq_true, ite_false, if_false]
      exact entryAfterAdjust_fadeInStartTime _ _
  · rw [hbeh] at h1
    simp only [reduceLoopTime] at h1
    have hne : ¬ (MotionBehavior.MotionBehavior_V1 = MotionBehavior.MotionBehavior_V2) := by
      intro hx
      exact MotionBehavior.noConfusion hx
    rw [if_neg hne] at h1
    rw [h1]
    unfold updateForNextLoop
    rw [hbeh]
    refine ⟨rfl, fun hly => ?_, fun hln => ?_⟩
    · simp only [hly, ite_true, if_true]
    · simp only [hln, Bool.false_eq_true, ite_false, if_false]
      exact entryAfterAdjust_fadeInStartTime _ _

/-- Witness for the amended claim C8 at a concrete input: on the legacy-V1
looping motion with loop fade-in disabled, at time 10 the start time becomes
10 and the fade-in start time stays at 7. -/
theorem claimC8_amended_witness :
    exMotionC8.motionData = some exMdC8 ∧ exMotionC8.isLoop = true ∧
    ((if exMotionC8.motionBehavior = MotionBehavior.MotionBehavior_V2
        then exMdC8.duration + 1 / exMdC8.fps else exMdC8.duration) ≤
      max 0 ((10 : Rat) - exEntryC8.startTime)) ∧
    (doUpdateParameters exMotionC8 {} (fun x => x) 10 1 exEntryC8).entry.startTime = 10 ∧
    (doUpdateParameters exMotionC8 {} (fun x => x) 10 1 exEntryC8).entry.fadeInStartTime
        = exEntryC8.fadeInStartTime := by
  refine ⟨rfl, rfl, by with_unfolding_all decide, ?_, ?_⟩
  · exact ((claimC8_amended exMotionC8 {} (fun x => x) 10 1 exEntryC8 exMdC8 rfl rfl
      (by with_unfolding_all decide)).2 rfl).1
  · exact ((claimC8_amended exMotionC8 {} (fun x => x) 10 1 exEntryC8 exMdC8 rfl rfl
      (by with_unfolding_all decide)).2 rfl).2.2 rfl

/-- Helper: every write produced by the Model-curve loop beyond the incoming
log is a model-opacity write. -/
theorem modelCurvesLoop_mem (md : CubismMotionData) (time duration : Rat)
    (isCorrection : Bool) (c : Nat) (ebv lsv : Option Rat) (mo : Rat)
    (ws : List ModelWrite) (w : ModelWrite)
    (hw : w ∈ (modelCurvesLoop md time duration isCorrection c ebv lsv mo ws).2.2.2.2) :
    w ∈ ws ∨ w.site = WriteSite.modelOpacityWrite := by
  rw [modelCurvesLoop] at hw
  split at hw
  · rename_i h
    split at hw
    · exact modelCurvesLoop_mem md time duration isCorrection (c + 1) _ lsv mo ws w hw
    · split at hw
      · exact modelCurvesLoop_mem md time duration isCorrection (c + 1) ebv _ mo ws w hw
      · split at hw
        · rcases modelCurvesLoop_mem md time duration isCorrection (c + 1) ebv lsv _ _ w hw with
            hmem | hsite
          · rcases List.mem_append.mp hmem with hmem | hmem
            · exact Or.inl hmem
            · simp only [List.mem_singleton] at hmem
              subst hmem
              exact Or.inr rfl
          · exact Or.inr hsite
        · exact modelCurvesLoop_mem md time duration isCorrection (c + 1) ebv lsv mo ws w hw
  · exact Or.inl hw
termination_by md.curveCount - c
decreasing_by all_goals omega

/-- Helper: every write produced by an overlay loop beyond the incoming log
carries the overlay's site tag. -/
theorem effectOverlayLoop_mem (site : WriteSite) (ids : List String) (v fadeWeight : Rat)
    (additive : Bool) (flags : Nat) (i : Nat) (ws : List ModelWrite) (w : ModelWrite)
    (hw : w ∈ effectOverlayLoop site ids v fadeWeight additive flags i ws) :
    w ∈ ws ∨ w.site = site := by
  rw [effectOverlayLoop] at hw
  split at hw
  · rename_i h
    split at hw
    · exact effectOverlayLoop_mem site ids v fadeWeight additive flags (i + 1) ws w hw
    · rcases effectOverlayLoop_mem site ids v fadeWeight additive flags (i + 1) _ w hw with
        hmem | hsite
      · rcases List.mem_append.mp hmem with hmem | hmem
        · exact Or.inl hmem
        · simp only [List.mem_singleton] at hmem
          subst hmem
          exact Or.inr rfl
      · exact Or.inr hsite
  · exact Or.inl hw
termination_by ids.length - i
decreasing_by all_goals omega

/-- Helper: `applyOverlay` only adds writes with the overlay's site tag. -/
theorem applyOverlay_mem (site : WriteSite) (ids : List String) (ov : Option Rat)
    (fadeWeight : Rat) (additive : Bool) (flags : Nat) (ws : List ModelWrite) (w : ModelWrite)
    (hw : w ∈ applyOverlay site ids ov fadeWeight additive flags ws) :
    w ∈ ws ∨ w.site = site := by
  unfold applyOverlay at hw
  cases ov with
  | none => exact Or.inl hw
  | some v => exact effectOverlayLoop_mem site ids v fadeWeight additive flags 0 ws w hw

/-- Helper: every write produced by the PartOpacity loop beyond the incoming
log is a part-opacity write. -/
theorem partOpacityCurvesLoop_mem (md : CubismMotionData) (model : ModelView)
    (motion : CubismOverrideMotion) (time duration : Rat) (isCorrection : Bool)
    (c : Nat) (ws : List ModelWrite) (w : ModelWrite)
    (hw : w ∈ (partOpacityCurvesLoop md model motion time duration isCorrection c ws).2) :
    w ∈ ws ∨ w.site = WriteSite.partOpacityCurve := by
  rw [partOpacityCurvesLoop] at hw
  split at hw
  · rename_i h
    simp only [] at hw
    split at hw
    · exact partOpacityCurvesLoop_mem md model motion time duration isCorrection (c + 1) ws w hw
    · rcases partOpacityCurvesLoop_mem md model motion time duration isCorrection (c + 1) _ w hw
        with hmem | hsite
      · rcases List.mem_append.mp hmem with hmem | hmem
        · exact Or.inl hmem
        · simp only [List.mem_singleton] at hmem
          subst hmem
          exact Or.inr rfl
      · exact Or.inr hsite
  · exact Or.inl hw
termination_by md.curveCount - c
decreasing_by all_goals omega

/-- Helper: every write produced by the Parameter-curve loop beyond the
incoming log is a parameter-curve write for a Parameter-target curve, carrying
that curve's id and the loop's per-curve fade weight. -/
theorem paramCurvesLoop_mem (md : CubismMotionData) (model : ModelView) (es : Rat → Rat)
    (motion : CubismOverrideMotion) (entry : CubismMotionQueueEntry)
    (userTimeSeconds fadeWeight time duration : Rat) (isCorrection : Bool)
    (tmpFadeIn tmpFadeOut : Rat) (ebv lsv : Option Rat) (ebIds lsIds : List String)
    (c : Nat) (ebFlags lsFlags : Nat) (pmcc : Nat) (ws : List ModelWrite) (w : ModelWrite)
    (hw : w ∈ (paramCurvesLoop md model es motion entry userTimeSeconds fadeWeight time
      duration isCorrection tmpFadeIn tmpFadeOut ebv lsv ebIds lsIds c ebFlags lsFlags pmcc
      ws).2.2.2.2) :
    w ∈ ws ∨ (w.site = WriteSite.paramCurve ∧
      (md.curvesAt w.sourceIndex).type = CubismMotionCurveTarget.Parameter ∧
      w.targetId = (md.curvesAt w.sourceIndex).id ∧
      w.weight = loopParamWeight (md.curvesAt w.sourceIndex) motion entry es
        userTimeSeconds fadeWeight tmpFadeIn tmpFadeOut) := by
  rw [paramCurvesLoop] at hw
  split at hw
  · rename_i h
    split at hw
    · exact paramCurvesLoop_mem md model es motion entry userTimeSeconds fadeWeight time
        duration isCorrection tmpFadeIn tmpFadeOut ebv lsv ebIds lsIds
        (c + 1) ebFlags lsFlags (pmcc + 1) ws w hw
    · rcases paramCurvesLoop_mem md model es motion entry userTimeSeconds fadeWeight time
        duration isCorrection tmpFadeIn tmpFadeOut ebv lsv ebIds lsIds
        (c + 1) _ _ (pmcc + 1) _ w hw with hmem | hP
      · rcases List.mem_append.mp hmem with hmem | hmem
        · exact Or.inl hmem
        · simp only [List.mem_singleton] at hmem
          subst hmem
          exact Or.inr ⟨rfl, h.2, rfl, rfl⟩
      · exact Or.inr hP
  · exact Or.inl hw
termination_by md.curveCount - c
decreasing_by all_goals omega

/-- Helper: the loop's per-curve weight with the asset-level ramps plugged in
is exactly claim C5's description. -/
theorem loopParamWeight_eq_claim (curve : CubismMotionCurve) (motion : CubismOverrideMotion)
    (entry : CubismMotionQueueEntry) (es : Rat → Rat) (userTimeSeconds fadeWeight : Rat) :
    loopParamWeight curve motion entry es userTimeSeconds fadeWeight
        (assetFadeInFactor motion es userTimeSeconds entry)
        (assetFadeOutFactor motion es userTimeSeconds entry) =
      claimParamWeightC5 motion entry es userTimeSeconds fadeWeight curve := by
  unfold loopParamWeight claimParamWeightC5 assetFadeInFactor assetFadeOutFactor
  rfl

/-- Claim C5: every Parameter-curve write of a `doUpdateParameters` call (in a
steady-state frame, where the loop flag did not just change) is applied at the
weight the claim describes: the global `fadeWeight` exactly when both of the
curve's per-curve fade times are negative, and otherwise the motion weight
times the fade-in and fade-out factors, with a zero per-curve time giving
factor 1 and a negative per-curve time falling back to the asset-level ramp
for that side. -/
theorem claimC5 (motion : CubismOverrideMotion) (model : ModelView) (es : Rat → Rat)
    (userTimeSeconds fadeWeight : Rat) (entryIn : CubismMotionQueueEntry)
    (md : CubismMotionData) (hmd : motion.motionData = some md)
    (hprev : motion.previousLoopState = motion.isLoop) (w : ModelWrite)
    (hw : w ∈ (doUpdateParameters motion model es userTimeSeconds fadeWeight entryIn).writes)
    (hsite : w.site = WriteSite.paramCurve) :
    w.weight = claimParamWeightC5 motion entryIn es userTimeSeconds fadeWeight
      (md.curvesAt w.sourceIndex) := by
  have hentry : entryAfterAdjust motion entryIn = entryIn := by
    unfold entryAfterAdjust
    rw [if_neg]
    simp [hprev]
  simp only [doUpdateParameters, hmd, hentry] at hw
  rcases partOpacityCurvesLoop_mem _ _ _ _ _ _ _ _ w hw with hw | hx
  swap
  · rw [hsite] at hx
    exact absurd hx (by intro hx; exact WriteSite.noConfusion hx)
  rcases applyOverlay_mem _ _ _ _ _ _ _ w hw with hw | hx
  swap
  · rw [hsite] at hx
    exact absurd hx (by intro hx; exact WriteSite.noConfusion hx)
  rcases applyOverlay_mem _ _ _ _ _ _ _ w hw with hw | hx
  swap
  · rw [hsite] at hx
    exact absurd hx (by intro hx; exact WriteSite.noConfusion hx)
  rcases paramCurvesLoop_mem _ _ _ _ _ _ _ _ _ _ _ _ _ _ _ _ _ _ _ _ _ w hw with hw | hP
  swap
  · rw [hP.2.2.2, loopParamWeight_eq_claim]
  rcases modelCurvesLoop_mem _ _ _ _ _ _ _ _ _ w hw with hw | hx
  · exact absurd hw (List.not_mem_nil w)
  · rw [hsite] at hx
    exact absurd hx (by intro hx; exact WriteSite.noConfusion hx)

/-- Witness for claim C5 at a concrete input: the single Parameter-curve write
of a concrete call (curve "Q", both per-curve fade times negative) is applied
exactly at the global fade weight 4/5, matching the claim formula. -/
theorem claimC5_witness :
    ((doUpdateParameters exMotionC5 exModelC5 (fun x => x) (1/2) (4/5) {}).writes.getD 0 default
      ∈ (doUpdateParameters exMotionC5 exModelC5 (fun x => x) (1/2) (4/5) {}).writes) ∧
    ((doUpdateParameters exMotionC5 exModelC5 (fun x => x) (1/2) (4/5) {}).writes.getD 0
        default).site = WriteSite.paramCurve ∧
    ((doUpdateParameters exMotionC5 exModelC5 (fun x => x) (1/2) (4/5) {}).writes.getD 0
        default).weight =
      claimParamWeightC5 exMotionC5 {} (fun x => x) (1/2) (4/5)
        (exMdC3.curvesAt
          ((doUpdateParameters exMotionC5 exModelC5 (fun x => x) (1/2) (4/5) {}).writes.getD 0
            default).sourceIndex) :=
  ⟨by with_unfolding_all decide, by with_unfolding_all decide,
    claimC5 exMotionC5 exModelC5 (fun x => x) (1/2) (4/5) {} exMdC3 rfl rfl _
      (by with_unfolding_all decide) (by with_unfolding_all decide)⟩

/-- Helper: a successful first-index search yields an in-range position that
holds the searched id. -/
theorem firstIdxFrom?_some (ids : List String) (name : String) (i j : Nat)
    (h : firstIdxFrom? ids name i = some j) :
    j < ids.length ∧ ids.getD j "" = name ∧ i ≤ j := by
  rw [firstIdxFrom?] at h
  split at h
  · rename_i hi
    split at h
    · rename_i heq
      cases h
      exact ⟨hi, heq, le_refl _⟩
    · obtain ⟨h1, h2, h3⟩ := firstIdxFrom?_some ids name (i + 1) j h
      exact ⟨h1, h2, by omega⟩
  · cases h
termination_by ids.length - i
decreasing_by omega

/-- Helper: in a duplicate-free id list, the first index of the id stored at
position `i`, searched from any position at or before `i`, is `i` itself. -/
theorem firstIdxFrom?_nodup (ids : List String) (hnd : ids.Nodup) (i : Nat)
    (hi : i < ids.length) (k : Nat) (hk : k ≤ i) :
    firstIdxFrom? ids (ids.getD i "") k = some i := by
  have hklt : k < ids.length := by omega
  rw [firstIdxFrom?]
  rw [dif_pos hklt]
  by_cases heq : ids.getD k "" = ids.getD i ""
  · have hkeq : k = i := by
      rw [List.getD_eq_getElem ids "" hklt, List.getD_eq_getElem ids "" hi] at heq
      exact hnd.getElem_inj_iff.mp heq
    rw [if_pos heq, hkeq]
  · rw [if_neg heq]
    have hki : k ≠ i := fun hx => heq (hx ▸ rfl)
    exact firstIdxFrom?_nodup ids hnd i hi (k + 1) (by omega)
termination_by ids.length - k
decreasing_by omega

/-- Helper: the claiming loop equals a first-index search when the target
list has at most 32 entries, none of them empty: at the first match it
applies the overlay to the value and sets that bit, otherwise it leaves both
untouched. -/
theorem effectClaimLoop_eq (ids : List String) (name : String) (apply : Rat → Rat)
    (hlen : ids.length ≤ 32) (hne : ("" : String) ∉ ids) (i : Nat) (value : Rat)
    (flags : Nat) :
    effectClaimLoop ids name apply i value flags =
      match firstIdxFrom? ids name i with
      | some j => (apply value, flags ||| (1 <<< j))
      | none => (value, flags) := by
  generalize hn : ids.length - i = n
  induction n generalizing i with
  | zero =>
    have hi : ¬ i < ids.length := by omega
    rw [effectClaimLoop, firstIdxFrom?]
    rw [dif_neg hi, dif_neg (by intro hx; exact hi hx.1)]
  | succ n ih =>
    have hi : i < ids.length := by omega
    have hi64 : i < 64 := by omega
    have hmem : ids.getD i "" ∈ ids := by
      rw [List.getD_eq_getElem ids "" hi]
      exact List.getElem_mem hi
    have hneq : ids.getD i "" ≠ "" := fun hx => hne (hx ▸ hmem)
    rw [effectClaimLoop, firstIdxFrom?]
    rw [dif_pos (⟨hi, hi64⟩ : i < ids.length ∧ i < 64), dif_pos hi]
    by_cases hname : ids.getD i "" = name
    · rw [if_pos ⟨hneq, hname⟩, if_pos hname]
      rw [Nat.mod_eq_of_lt (show i < 32 by omega)]
    · rw [if_neg (by intro hx; exact hname hx.2), if_neg hname]
      exact ih (i + 1) (by omega)

/-- Helper: the eye-blink flag mask of one Parameter-curve step — a bit is
set afterwards exactly when it was set before, or the eye-blink overlay was
pending and the bit is the first position of the curve's id in the target
list. -/
theorem paramCurveStep_ebFlags (md : CubismMotionData) (model : ModelView) (es : Rat → Rat)
    (motion : CubismOverrideMotion) (entry : CubismMotionQueueEntry)
    (userTimeSeconds fadeWeight time duration : Rat) (isCorrection : Bool)
    (tmpFadeIn tmpFadeOut : Rat) (ebv lsv : Option Rat) (ebIds lsIds : List String)
    (c : Nat) (ebFlags lsFlags : Nat)
    (hebLen : ebIds.length ≤ 32) (hebNe : ("" : String) ∉ ebIds) (k : Nat) :
    ((paramCurveStep md model es motion entry userTimeSeconds fadeWeight time duration
      isCorrection tmpFadeIn tmpFadeOut ebv lsv ebIds lsIds c ebFlags
      lsFlags).2.1.testBit k = true) ↔
      (ebFlags.testBit k = true ∨ (ebv.isSome = true ∧
        firstIdxFrom? ebIds (md.curvesAt c).id 0 = some k)) := by
  unfold paramCurveStep
  cases ebv with
  | none => simp
  | some e =>
    simp only [Option.isSome_some, true_and]
    rw [effectClaimLoop_eq ebIds (md.curvesAt c).id _ hebLen hebNe]
    cases hf : firstIdxFrom? ebIds (md.curvesAt c).id 0 with
    | none => simp
    | some j =>
      simp only [Nat.testBit_or]
      rw [Nat.shiftLeft_eq, one_mul, Nat.testBit_two_pow]
      simp only [Bool.or_eq_true, decide_eq_true_eq, Option.some.injEq]

/-- Helper: the lip-sync flag mask of one Parameter-curve step, symmetric to
the eye-blink case. -/
theorem paramCurveStep_lsFlags (md : CubismMotionData) (model : ModelView) (es : Rat → Rat)
    (motion : CubismOverrideMotion) (entry : CubismMotionQueueEntry)
    (userTimeSeconds fadeWeight time duration : Rat) (isCorrection : Bool)
    (tmpFadeIn tmpFadeOut : Rat) (ebv lsv : Option Rat) (ebIds lsIds : List String)
    (c : Nat) (ebFlags lsFlags : Nat)
    (hlsLen : lsIds.length ≤ 32) (hlsNe : ("" : String) ∉ lsIds) (k : Nat) :
    ((paramCurveStep md model es motion entry userTimeSeconds fadeWeight time duration
      isCorrection tmpFadeIn tmpFadeOut ebv lsv ebIds lsIds c ebFlags
      lsFlags).2.2.testBit k = true) ↔
      (lsFlags.testBit k = true ∨ (lsv.isSome = true ∧
        firstIdxFrom? lsIds (md.curvesAt c).id 0 = some k)) := by
  unfold paramCurveStep
  cases lsv with
  | none => simp
  | some l =>
    simp only [Option.isSome_some, true_and]
    rw [effectClaimLoop_eq lsIds (md.curvesAt c).id _ hlsLen hlsNe]
    cases hf : firstIdxFrom? lsIds (md.curvesAt c).id 0 with
    | none => simp
    | some j =>
      simp only [Nat.testBit_or]
      rw [Nat.shiftLeft_eq, one_mul, Nat.testBit_two_pow]
      simp only [Bool.or_eq_true, decide_eq_true_eq, Option.some.injEq]

/-- Helper: the Parameter loop only appends to the incoming write log, and no
other output component depends on it. -/
theorem paramCurvesLoop_append (md : CubismMotionData) (model : ModelView) (es : Rat → Rat)
    (motion : CubismOverrideMotion) (entry : CubismMotionQueueEntry)
    (userTimeSeconds fadeWeight time duration : Rat) (isCorrection : Bool)
    (tmpFadeIn tmpFadeOut : Rat) (ebv lsv : Option Rat) (ebIds lsIds : List String)
    (c : Nat) (ebFlags lsFlags : Nat) (pmcc : Nat) (ws : List ModelWrite) :
    paramCurvesLoop md model es motion entry userTimeSeconds fadeWeight time duration
        isCorrection tmpFadeIn tmpFadeOut ebv lsv ebIds lsIds c ebFlags lsFlags pmcc ws =
      ((paramCurvesLoop md model es motion entry userTimeSeconds fadeWeight time duration
          isCorrection tmpFadeIn tmpFadeOut ebv lsv ebIds lsIds c ebFlags lsFlags pmcc []).1,
       (paramCurvesLoop md model es motion entry userTimeSeconds fadeWeight time duration
          isCorrection tmpFadeIn tmpFadeOut ebv lsv ebIds lsIds c ebFlags lsFlags
          pmcc []).2.1,
       (paramCurvesLoop md model es motion entry userTimeSeconds fadeWeight time duration
          isCorrection tmpFadeIn tmpFadeOut ebv lsv ebIds lsIds c ebFlags lsFlags
          pmcc []).2.2.1,
       (paramCurvesLoop md model es motion entry userTimeSeconds fadeWeight time duration
          isCorrection tmpFadeIn tmpFadeOut ebv lsv ebIds lsIds c ebFlags lsFlags
          pmcc []).2.2.2.1,
       ws ++ (paramCurvesLoop md model es motion entry userTimeSeconds fadeWeight time duration
          isCorrection tmpFadeIn tmpFadeOut ebv lsv ebIds lsIds c ebFlags lsFlags
          pmcc []).2.2.2.2) := by
  rw [paramCurvesLoop]
  conv_rhs => rw [paramCurvesLoop]
  split
  · rename_i h
    split
    · rw [paramCurvesLoop_append md model es motion entry userTimeSeconds fadeWeight time
        duration isCorrection tmpFadeIn tmpFadeOut ebv lsv ebIds lsIds
        (c + 1) ebFlags lsFlags (pmcc + 1) ws]
    · simp only []
      rw [paramCurvesLoop_append md model es motion entry userTimeSeconds fadeWeight time
        duration isCorrection tmpFadeIn tmpFadeOut ebv lsv ebIds lsIds (c + 1) _ _ (pmcc + 1)
        (ws ++ [_])]
      rw [paramCurvesLoop_append md model es motion entry userTimeSeconds fadeWeight time
        duration isCorrection tmpFadeIn tmpFadeOut ebv lsv ebIds lsIds (c + 1) _ _ (pmcc + 1)
        ([] ++ [_])]
      simp [List.append_assoc]
  · simp
termination_by md.curveCount - c
decreasing_by all_goals omega

/-- Helper: the overlay loop only appends to the incoming write log. -/
theorem effectOverlayLoop_append (site : WriteSite) (ids : List String) (v fadeWeight : Rat)
    (additive : Bool) (flags : Nat) (i : Nat) (ws : List ModelWrite) :
    effectOverlayLoop site ids v fadeWeight additive flags i ws =
      ws ++ effectOverlayLoop site ids v fadeWeight additive flags i [] := by
  rw [effectOverlayLoop]
  conv_rhs => rw [effectOverlayLoop]
  split
  · rename_i h
    split
    · rw [effectOverlayLoop_append site ids v fadeWeight additive flags (i + 1) ws]
    · rw [effectOverlayLoop_append site ids v fadeWeight additive flags (i + 1) (ws ++ [_])]
      rw [effectOverlayLoop_append site ids v fadeWeight additive flags (i + 1) ([] ++ [_])]
      simp [List.append_assoc]
  · simp
termination_by ids.length - i
decreasing_by all_goals omega

/-- Helper: the PartOpacity loop only appends to the incoming write log. -/
theorem partOpacityCurvesLoop_append (md : CubismMotionData) (model : ModelView)
    (motion : CubismOverrideMotion) (time duration : Rat) (isCorrection : Bool)
    (c : Nat) (ws : List ModelWrite) :
    (partOpacityCurvesLoop md model motion time duration isCorrection c ws).2 =
      ws ++ (partOpacityCurvesLoop md model motion time duration isCorrection c []).2 := by
  rw [partOpacityCurvesLoop]
  conv_rhs => rw [partOpacityCurvesLoop]
  split
  · rename_i h
    simp only []
    split
    · rw [partOpacityCurvesLoop_append md model motion time duration isCorrection (c + 1) ws]
    · rw [partOpacityCurvesLoop_append md model motion time duration isCorrection (c + 1)
        (ws ++ [_])]
      rw [partOpacityCurvesLoop_append md model motion time duration isCorrection (c + 1)
        ([] ++ [_])]
      simp [List.append_assoc]
  · simp
termination_by md.curveCount - c
decreasing_by all_goals omega

/-- Helper: the exact content of one overlay pass over a short target list
(at most 32 entries): in list order, one write for every position whose
claimed bit is unset. -/
theorem effectOverlayLoop_eq (site : WriteSite) (ids : List String) (v fadeWeight : Rat)
    (additive : Bool) (flags : Nat) (hlen : ids.length ≤ 32) (i : Nat) (ws : List ModelWrite) :
    effectOverlayLoop site ids v fadeWeight additive flags i ws =
      ws ++ ((List.range' i (ids.length - i)).filter (fun j => !(flags.testBit j))).map
        (fun j => { site := site, sourceIndex := j, targetId := ids.getD j "",
                    additive := additive, value := v, weight := fadeWeight }) := by
  generalize hn : ids.length - i = n
  induction n generalizing i ws with
  | zero =>
    have hi : ¬ i < ids.length := by omega
    rw [effectOverlayLoop]
    rw [dif_neg (by intro hx; exact hi hx.1)]
    simp [List.range']
  | succ n ih =>
    have hi : i < ids.length := by omega
    have hi64 : i < 64 := by omega
    have hbit : ((flags >>> (i % 32)) &&& 1 = 1) ↔ flags.testBit i = true := by
      rw [Nat.mod_eq_of_lt (show i < 32 by omega)]
      simp [Nat.testBit, Nat.and_comm]
    rw [effectOverlayLoop]
    rw [dif_pos (⟨hi, hi64⟩ : i < ids.length ∧ i < 64)]
    rw [List.range'_succ, List.filter_cons]
    by_cases hb : flags.testBit i = true
    · rw [if_pos (hbit.mpr hb)]
      have hnb : (!flags.testBit i) = false := by rw [hb]; rfl
      rw [hnb]
      simp only [Bool.false_eq_true, if_false]
      exact ih (i + 1) ws (by omega)
    · rw [if_neg (fun hx => hb (hbit.mp hx))]
      have hnb : (!flags.testBit i) = true := by
        cases hxx : flags.testBit i
        · rfl
        · exact absurd hxx hb
      rw [hnb]
      simp only [if_true]
      rw [ih (i + 1) (ws ++ [_]) (by omega)]
      simp [List.append_assoc]

/-- Helper: final claimed-bit characterization of the Parameter loop (run on
an empty incoming log): a bit is set on output exactly when it was set on
input, or the corresponding overlay was pending and some emitted write's
curve id has that bit's position as its first match in the target list. -/
theorem paramCurvesLoop_flags (md : CubismMotionData) (model : ModelView) (es : Rat → Rat)
    (motion : CubismOverrideMotion) (entry : CubismMotionQueueEntry)
    (userTimeSeconds fadeWeight time duration : Rat) (isCorrection : Bool)
    (tmpFadeIn tmpFadeOut : Rat) (ebv lsv : Option Rat) (ebIds lsIds : List String)
    (hebLen : ebIds.length ≤ 32) (hebNe : ("" : String) ∉ ebIds)
    (hlsLen : lsIds.length ≤ 32) (hlsNe : ("" : String) ∉ lsIds)
    (c : Nat) (ebFlags lsFlags : Nat) (pmcc : Nat) (k : Nat) :
    (((paramCurvesLoop md model es motion entry userTimeSeconds fadeWeight time duration
        isCorrection tmpFadeIn tmpFadeOut ebv lsv ebIds lsIds c ebFlags lsFlags pmcc
        []).2.1.testBit k = true) ↔
      (ebFlags.testBit k = true ∨ (ebv.isSome = true ∧
        ∃ w ∈ (paramCurvesLoop md model es motion entry userTimeSeconds fadeWeight time
          duration isCorrection tmpFadeIn tmpFadeOut ebv lsv ebIds lsIds c ebFlags lsFlags
          pmcc []).2.2.2.2, firstIdxFrom? ebIds w.targetId 0 = some k))) ∧
    (((paramCurvesLoop md model es motion entry userTimeSeconds fadeWeight time duration
        isCorrection tmpFadeIn tmpFadeOut ebv lsv ebIds lsIds c ebFlags lsFlags pmcc
        []).2.2.1.testBit k = true) ↔
      (lsFlags.testBit k = true ∨ (lsv.isSome = true ∧
        ∃ w ∈ (paramCurvesLoop md model es motion entry userTimeSeconds fadeWeight time
          duration isCorrection tmpFadeIn tmpFadeOut ebv lsv ebIds lsIds c ebFlags lsFlags
          pmcc []).2.2.2.2, firstIdxFrom? lsIds w.targetId 0 = some k))) := by
  rw [paramCurvesLoop]
  split
  · rename_i h
    split
    · exact paramCurvesLoop_flags md model es motion entry userTimeSeconds fadeWeight time
        duration isCorrection tmpFadeIn tmpFadeOut ebv lsv ebIds lsIds hebLen hebNe hlsLen
        hlsNe (c + 1) ebFlags lsFlags (pmcc + 1) k
    · simp only []
      rw [paramCurvesLoop_append md model es motion entry userTimeSeconds fadeWeight time
        duration isCorrection tmpFadeIn tmpFadeOut ebv lsv ebIds lsIds (c + 1) _ _ (pmcc + 1)
        ([] ++ [_])]
      have hih := paramCurvesLoop_flags md model es motion entry userTimeSeconds fadeWeight
        time duration isCorrection tmpFadeIn tmpFadeOut ebv lsv ebIds lsIds hebLen hebNe
        hlsLen hlsNe (c + 1)
        (paramCurveStep md model es motion entry userTimeSeconds fadeWeight time duration
          isCorrection tmpFadeIn tmpFadeOut ebv lsv ebIds lsIds c ebFlags lsFlags).2.1
        (paramCurveStep md model es motion entry userTimeSeconds fadeWeight time duration
          isCorrection tmpFadeIn tmpFadeOut ebv lsv ebIds lsIds c ebFlags lsFlags).2.2
        (pmcc + 1) k
      have hs1 := paramCurveStep_ebFlags md model es motion entry userTimeSeconds fadeWeight
        time duration isCorrection tmpFadeIn tmpFadeOut ebv lsv ebIds lsIds c ebFlags lsFlags
        hebLen hebNe k
      have hs2 := paramCurveStep_lsFlags md model es motion entry userTimeSeconds fadeWeight
        time duration isCorrection tmpFadeIn tmpFadeOut ebv lsv ebIds lsIds c ebFlags lsFlags
        hlsLen hlsNe k
      have hsid : (paramCurveStep md model es motion entry userTimeSeconds fadeWeight time
        duration isCorrection tmpFadeIn tmpFadeOut ebv lsv ebIds lsIds c ebFlags
        lsFlags).1.targetId = (md.curvesAt c).id := rfl
      constructor
      · rw [hih.1, hs1]
        simp only [List.nil_append, List.singleton_append, List.mem_cons, hsid]
        constructor
        · rintro ((hf | ⟨hS, hfi⟩) | ⟨hS, w, hw, hfi⟩)
          · exact Or.inl hf
          · exact Or.inr ⟨hS, _, Or.inl rfl, by rw [hsid]; exact hfi⟩
          · exact Or.inr ⟨hS, w, Or.inr hw, hfi⟩
        · rintro (hf | ⟨hS, w, (hw | hw), hfi⟩)
          · exact Or.inl (Or.inl hf)
          · subst hw
            rw [hsid] at hfi
            exact Or.inl (Or.inr ⟨hS, hfi⟩)
          · exact Or.inr ⟨hS, w, hw, hfi⟩
      · rw [hih.2, hs2]
        simp only [List.nil_append, List.singleton_append, List.mem_cons, hsid]
        constructor
        · rintro ((hf | ⟨hS, hfi⟩) | ⟨hS, w, hw, hfi⟩)
          · exact Or.inl hf
          · exact Or.inr ⟨hS, _, Or.inl rfl, by rw [hsid]; exact hfi⟩
          · exact Or.inr ⟨hS, w, Or.inr hw, hfi⟩
        · rintro (hf | ⟨hS, w, (hw | hw), hfi⟩)
          · exact Or.inl (Or.inl hf)
          · subst hw
            rw [hsid] at hfi
            exact Or.inl (Or.inr ⟨hS, hfi⟩)
          · exact Or.inr ⟨hS, w, hw, hfi⟩
  · simp
termination_by md.curveCount - c
decreasing_by all_goals omega

/-- Helper: a write-log filter over writes of foreign sites is empty. -/
theorem filter_eq_nil_of_sites (p : ModelWrite → Bool) (l : List ModelWrite)
    (h : ∀ w ∈ l, p w = false) : l.filter p = [] := by
  rw [List.filter_eq_nil_iff]
  intro a ha
  rw [h a ha]
  simp

/-- Helper: filtering a duplicate-free index list mapped to writes by a
predicate that holds exactly at index `i` yields the singleton at `i` (or
nothing when `i` is absent). -/
theorem map_filter_single (l : List Nat) (hnd : l.Nodup) (f : Nat → ModelWrite)
    (q : ModelWrite → Bool) (i : Nat)
    (hq : ∀ j ∈ l, (q (f j) = true ↔ j = i)) :
    (l.map f).filter q = if i ∈ l then [f i] else [] := by
  induction l with
  | nil => simp
  | cons a t ih =>
    simp only [List.map_cons, List.filter_cons]
    have hnda : a ∉ t := (List.nodup_cons.mp hnd).1
    have hndt : t.Nodup := (List.nodup_cons.mp hnd).2
    by_cases ha : a = i
    · subst ha
      rw [if_pos ((hq a (by simp)).mpr rfl)]
      have hrest : (t.map f).filter q = [] := by
        apply filter_eq_nil_of_sites
        intro w hw
        obtain ⟨j, hj, hfj⟩ := List.mem_map.mp hw
        subst hfj
        cases hx : q (f j)
        · rfl
        · exact absurd ((hq j (by simp [hj])).mp hx ▸ hj) hnda
      rw [hrest]
      simp
    · have hqa : q (f a) = false := by
        cases hx : q (f a)
        · rfl
        · exact absurd ((hq a (by simp)).mp hx) ha
      rw [hqa]
      simp only [Bool.false_eq_true, if_false]
      rw [ih hndt (fun j hj => hq j (by simp [hj]))]
      have : (i ∈ a :: t) ↔ (i ∈ t) := by
        simp only [List.mem_cons]
        constructor
        · rintro (hx | hx)
          · exact absurd hx.symm ha
          · exact hx
        · exact Or.inr
      rw [if_congr this rfl rfl]

/-- Helper: `applyOverlay` with a pending value is the overlay loop. -/
theorem applyOverlay_some (site : WriteSite) (ids : List String) (v fadeWeight : Rat)
    (additive : Bool) (flags : Nat) (ws : List ModelWrite) :
    applyOverlay site ids (some v) fadeWeight additive flags ws =
      effectOverlayLoop site ids v fadeWeight additive flags 0 ws := rfl

/-- Helper: `applyOverlay` only appends to the incoming write log. -/
theorem applyOverlay_append (site : WriteSite) (ids : List String) (ov : Option Rat)
    (fadeWeight : Rat) (additive : Bool) (flags : Nat) (ws : List ModelWrite) :
    applyOverlay site ids ov fadeWeight additive flags ws =
      ws ++ applyOverlay site ids ov fadeWeight additive flags [] := by
  cases ov with
  | none => simp [applyOverlay]
  | some v =>
    rw [applyOverlay_some, applyOverlay_some]
    exact effectOverlayLoop_append site ids v fadeWeight additive flags 0 ws

/-- Helper for claim C6 (eye-blink half): with at most 32 duplicate-free,
non-empty eye-blink target ids and a pending eye-blink value, a position
whose id some Parameter-curve write carries gets no overlay write, and an
unclaimed position gets exactly one overlay write holding the pending value
at the global fade weight. -/
theorem claimC6_aux_eb (motion : CubismOverrideMotion) (model : ModelView) (es : Rat → Rat)
    (userTimeSeconds fadeWeight : Rat) (entryIn : CubismMotionQueueEntry)
    (md : CubismMotionData) (e : Rat) (i : Nat)
    (hmd : motion.motionData = some md)
    (hebLen : (motion.eyeBlinkParameterIds.getD []).length ≤ 32)
    (hlsLen : (motion.lipSyncParameterIds.getD []).length ≤ 32)
    (hebNd : (motion.eyeBlinkParameterIds.getD []).Nodup)
    (hebNe : ("" : String) ∉ motion.eyeBlinkParameterIds.getD [])
    (hlsNe : ("" : String) ∉ motion.lipSyncParameterIds.getD [])
    (he : (doUpdateParameters motion model es userTimeSeconds fadeWeight entryIn).eyeBlinkValue
      = some e)
    (hi : i < (motion.eyeBlinkParameterIds.getD []).length) :
    ((∃ w ∈ (doUpdateParameters motion model es userTimeSeconds fadeWeight entryIn).writes,
        w.site = WriteSite.paramCurve ∧
        w.targetId = (motion.eyeBlinkParameterIds.getD []).getD i "") →
      (doUpdateParameters motion model es userTimeSeconds fadeWeight entryIn).writes.filter
        (fun w => decide (w.site = WriteSite.eyeBlinkOverlay ∧ w.sourceIndex = i)) = []) ∧
    (¬ (∃ w ∈ (doUpdateParameters motion model es userTimeSeconds fadeWeight entryIn).writes,
        w.site = WriteSite.paramCurve ∧
        w.targetId = (motion.eyeBlinkParameterIds.getD []).getD i "") →
      ((doUpdateParameters motion model es userTimeSeconds fadeWeight entryIn).writes.filter
          (fun w => decide (w.site = WriteSite.eyeBlinkOverlay ∧ w.sourceIndex = i))).length
          = 1 ∧
      ∀ w ∈ (doUpdateParameters motion model es userTimeSeconds fadeWeight
          entryIn).writes.filter
          (fun w => decide (w.site = WriteSite.eyeBlinkOverlay ∧ w.sourceIndex = i)),
        w.targetId = (motion.eyeBlinkParameterIds.getD []).getD i "" ∧
        w.value = e ∧ w.weight = fadeWeight) := by
  simp only [doUpdateParameters, hmd] at he ⊢
  rw [he]
  set E := entryAfterAdjust motion entryIn with hE
  set T := sampleTimeOf motion md userTimeSeconds E with hT
  set D := adjustedDuration motion md with hD
  set C := isCorrectionOf motion with hC
  set TIN := assetFadeInFactor motion es userTimeSeconds E with hTIN
  set TOUT := assetFadeOutFactor motion es userTimeSeconds E with hTOUT
  set R1 := modelCurvesLoop md T D C 0 none none motion.modelOpacity [] with hR1
  set EBIDS := motion.eyeBlinkParameterIds.getD [] with hEB
  set LSIDS := motion.lipSyncParameterIds.getD [] with hLS
  rw [paramCurvesLoop_append md model es motion E userTimeSeconds fadeWeight T D C TIN TOUT
    (some e) R1.2.2.1 EBIDS LSIDS R1.1 0 0 0 R1.2.2.2.2]
  set TP := paramCurvesLoop md model es motion E userTimeSeconds fadeWeight T D C TIN TOUT
    (some e) R1.2.2.1 EBIDS LSIDS R1.1 0 0 0 [] with hTP
  simp only []
  rw [partOpacityCurvesLoop_append md model motion T D C TP.1]
  rw [applyOverlay_append WriteSite.lipSyncOverlay LSIDS R1.2.2.1 fadeWeight
    motion.eyeBlinkAdditive TP.2.2.1]
  rw [applyOverlay_some WriteSite.eyeBlinkOverlay EBIDS e fadeWeight motion.eyeBlinkAdditive
    TP.2.1]
  rw [effectOverlayLoop_eq WriteSite.eyeBlinkOverlay EBIDS e fadeWeight motion.eyeBlinkAdditive
    TP.2.1 hebLen 0]
  rw [Nat.sub_zero]
  have hS1 : ∀ w ∈ R1.2.2.2.2, w.site = WriteSite.modelOpacityWrite := by
    intro w hw
    rw [hR1] at hw
    rcases modelCurvesLoop_mem md T D C 0 none none motion.modelOpacity [] w hw with hx | hx
    · exact absurd hx (List.not_mem_nil w)
    · exact hx
  have hS2 : ∀ w ∈ TP.2.2.2.2, w.site = WriteSite.paramCurve ∧
      w.targetId = (md.curvesAt w.sourceIndex).id := by
    intro w hw
    rw [hTP] at hw
    rcases paramCurvesLoop_mem md model es motion E userTimeSeconds fadeWeight T D C TIN TOUT
      (some e) R1.2.2.1 EBIDS LSIDS R1.1 0 0 0 [] w hw with hx | hx
    · exact absurd hx (List.not_mem_nil w)
    · exact ⟨hx.1, hx.2.2.1⟩
  have hS3 : ∀ w ∈ (List.filter (fun j => !(TP.2.1.testBit j))
        (List.range' 0 EBIDS.length)).map
      (fun j => ({ site := WriteSite.eyeBlinkOverlay, sourceIndex := j,
                   targetId := EBIDS.getD j "", additive := motion.eyeBlinkAdditive,
                   value := e, weight := fadeWeight } : ModelWrite)),
      w.site = WriteSite.eyeBlinkOverlay := by
    intro w hw
    obtain ⟨j, hj, hfj⟩ := List.mem_map.mp hw
    rw [← hfj]
  have hS4 : ∀ w ∈ applyOverlay WriteSite.lipSyncOverlay LSIDS R1.2.2.1 fadeWeight
      motion.eyeBlinkAdditive TP.2.2.1 [], w.site = WriteSite.lipSyncOverlay := by
    intro w hw
    rcases applyOverlay_mem WriteSite.lipSyncOverlay LSIDS R1.2.2.1 fadeWeight
      motion.eyeBlinkAdditive TP.2.2.1 [] w hw with hx | hx
    · exact absurd hx (List.not_mem_nil w)
    · exact hx
  have hS5 : ∀ w ∈ (partOpacityCurvesLoop md model motion T D C TP.1 []).2,
      w.site = WriteSite.partOpacityCurve := by
    intro w hw
    rcases partOpacityCurvesLoop_mem md model motion T D C TP.1 [] w hw with hx | hx
    · exact absurd hx (List.not_mem_nil w)
    · exact hx
  have hclaim : (∃ w ∈ R1.2.2.2.2 ++ TP.2.2.2.2 ++
        (List.filter (fun j => !(TP.2.1.testBit j)) (List.range' 0 EBIDS.length)).map
          (fun j => ({ site := WriteSite.eyeBlinkOverlay, sourceIndex := j,
                       targetId := EBIDS.getD j "", additive := motion.eyeBlinkAdditive,
                       value := e, weight := fadeWeight } : ModelWrite)) ++
        applyOverlay WriteSite.lipSyncOverlay LSIDS R1.2.2.1 fadeWeight
          motion.eyeBlinkAdditive TP.2.2.1 [] ++
        (partOpacityCurvesLoop md model motion T D C TP.1 []).2,
      w.site = WriteSite.paramCurve ∧ w.targetId = EBIDS.getD i "") ↔
      ∃ w ∈ TP.2.2.2.2, w.targetId = EBIDS.getD i "" := by
    constructor
    · rintro ⟨w, hw, hsite, htid⟩
      simp only [List.mem_append] at hw
      rcases hw with ((((hw | hw) | hw) | hw) | hw)
      · rw [hS1 w hw] at hsite
        exact WriteSite.noConfusion hsite
      · exact ⟨w, hw, htid⟩
      · rw [hS3 w hw] at hsite
        exact WriteSite.noConfusion hsite
      · rw [hS4 w hw] at hsite
        exact WriteSite.noConfusion hsite
      · rw [hS5 w hw] at hsite
        exact WriteSite.noConfusion hsite
    · rintro ⟨w, hw, htid⟩
      refine ⟨w, ?_, (hS2 w hw).1, htid⟩
      simp only [List.mem_append]
      exact Or.inl (Or.inl (Or.inl (Or.inr hw)))
  have hflags := paramCurvesLoop_flags md model es motion E userTimeSeconds fadeWeight T D C
    TIN TOUT (some e) R1.2.2.1 EBIDS LSIDS hebLen hebNe hlsLen hlsNe R1.1 0 0 0 i
  rw [← hTP] at hflags
  have hbit : TP.2.1.testBit i = true ↔
      ∃ w ∈ TP.2.2.2.2, firstIdxFrom? EBIDS w.targetId 0 = some i := by
    rw [hflags.1]
    simp [Nat.zero_testBit]
  have hbridge : (∃ w ∈ TP.2.2.2.2, w.targetId = EBIDS.getD i "") ↔
      ∃ w ∈ TP.2.2.2.2, firstIdxFrom? EBIDS w.targetId 0 = some i := by
    constructor
    · rintro ⟨w, hw, htid⟩
      refine ⟨w, hw, ?_⟩
      rw [htid]
      exact firstIdxFrom?_nodup EBIDS hebNd i hi 0 (Nat.zero_le i)
    · rintro ⟨w, hw, hfi⟩
      obtain ⟨h1, h2, h3⟩ := firstIdxFrom?_some EBIDS w.targetId 0 i hfi
      exact ⟨w, hw, h2.symm⟩
  have hf1 : List.filter (fun w => decide (w.site = WriteSite.eyeBlinkOverlay ∧
      w.sourceIndex = i)) R1.2.2.2.2 = [] :=
    filter_eq_nil_of_sites _ _ (fun w hw => by simp [hS1 w hw])
  have hf2 : List.filter (fun w => decide (w.site = WriteSite.eyeBlinkOverlay ∧
      w.sourceIndex = i)) TP.2.2.2.2 = [] :=
    filter_eq_nil_of_sites _ _ (fun w hw => by simp [(hS2 w hw).1])
  have hf4 : List.filter (fun w => decide (w.site = WriteSite.eyeBlinkOverlay ∧
      w.sourceIndex = i)) (applyOverlay WriteSite.lipSyncOverlay LSIDS R1.2.2.1 fadeWeight
      motion.eyeBlinkAdditive TP.2.2.1 []) = [] :=
    filter_eq_nil_of_sites _ _ (fun w hw => by simp [hS4 w hw])
  have hf5 : List.filter (fun w => decide (w.site = WriteSite.eyeBlinkOverlay ∧
      w.sourceIndex = i)) (partOpacityCurvesLoop md model motion T D C TP.1 []).2 = [] :=
    filter_eq_nil_of_sites _ _ (fun w hw => by simp [hS5 w hw])
  have hfC := map_filter_single
    ((List.range' 0 EBIDS.length).filter (fun j => !(TP.2.1.testBit j)))
    (List.Nodup.filter _ (by rw [← List.range_eq_range']; exact List.nodup_range _))
    (fun j => ({ site := WriteSite.eyeBlinkOverlay, sourceIndex := j,
                 targetId := EBIDS.getD j "", additive := motion.eyeBlinkAdditive,
                 value := e, weight := fadeWeight } : ModelWrite))
    (fun w => decide (w.site = WriteSite.eyeBlinkOverlay ∧ w.sourceIndex = i)) i
    (by intro j hj; simp)
  refine ⟨fun hcl => ?_, fun hncl => ?_⟩
  · have hb : TP.2.1.testBit i = true := hbit.mpr (hbridge.mp (hclaim.mp hcl))
    have hnl : i ∉ (List.range' 0 EBIDS.length).filter (fun j => !(TP.2.1.testBit j)) := by
      intro hx
      have hx2 := (List.mem_filter.mp hx).2
      simp [hb] at hx2
    rw [if_neg hnl] at hfC
    simp only [List.filter_append]
    rw [hf1, hf2, hfC, hf4, hf5]
    simp
  · have hb : TP.2.1.testBit i = false := by
      cases hxx : TP.2.1.testBit i
      · rfl
      · exact absurd (hclaim.mpr (hbridge.mpr (hbit.mp hxx))) hncl
    have hl : i ∈ (List.range' 0 EBIDS.length).filter (fun j => !(TP.2.1.testBit j)) := by
      rw [List.mem_filter]
      refine ⟨?_, ?_⟩
      · rw [← List.range_eq_range']
        exact List.mem_range.mpr hi
      · simp [hb]
    rw [if_pos hl] at hfC
    constructor
    · simp only [List.filter_append]
      rw [hf1, hf2, hfC, hf4, hf5]
      simp
    · intro w hw
      simp only [List.filter_append] at hw
      rw [hf1, hf2, hfC, hf4, hf5] at hw
      simp only [List.append_nil, List.nil_append, List.mem_singleton] at hw
      subst hw
      exact ⟨rfl, rfl, rfl⟩

/-- Helper for claim C6 (lip-sync half): with at most 32 duplicate-free,
non-empty lip-sync target ids and a pending lip-sync value, a position whose
id some Parameter-curve write carries gets no overlay write, and an unclaimed
position gets exactly one overlay write holding the pending value at the
global fade weight. -/
theorem claimC6_aux_ls (motion : CubismOverrideMotion) (model : ModelView) (es : Rat → Rat)
    (userTimeSeconds fadeWeight : Rat) (entryIn : CubismMotionQueueEntry)
    (md : CubismMotionData) (l : Rat) (i : Nat)
    (hmd : motion.motionData = some md)
    (hebLen : (motion.eyeBlinkParameterIds.getD []).length ≤ 32)
    (hlsLen : (motion.lipSyncParameterIds.getD []).length ≤ 32)
    (hlsNd : (motion.lipSyncParameterIds.getD []).Nodup)
    (hebNe : ("" : String) ∉ motion.eyeBlinkParameterIds.getD [])
    (hlsNe : ("" : String) ∉ motion.lipSyncParameterIds.getD [])
    (hl : (doUpdateParameters motion model es userTimeSeconds fadeWeight entryIn).lipSyncValue
      = some l)
    (hi : i < (motion.lipSyncParameterIds.getD []).length) :
    ((∃ w ∈ (doUpdateParameters motion model es userTimeSeconds fadeWeight entryIn).writes,
        w.site = WriteSite.paramCurve ∧
        w.targetId = (motion.lipSyncParameterIds.getD []).getD i "") →
      (doUpdateParameters motion model es userTimeSeconds fadeWeight entryIn).writes.filter
        (fun w => decide (w.site = WriteSite.lipSyncOverlay ∧ w.sourceIndex = i)) = []) ∧
    (¬ (∃ w ∈ (doUpdateParameters motion model es userTimeSeconds fadeWeight entryIn).writes,
        w.site = WriteSite.paramCurve ∧
        w.targetId = (motion.lipSyncParameterIds.getD []).getD i "") →
      ((doUpdateParameters motion model es userTimeSeconds fadeWeight
          entryIn).writes.filter
          (fun w => decide (w.site = WriteSite.lipSyncOverlay ∧ w.sourceIndex = i))).length
          = 1 ∧
      ∀ w ∈ (doUpdateParameters motion model es userTimeSeconds fadeWeight
          entryIn).writes.filter
          (fun w => decide (w.site = WriteSite.lipSyncOverlay ∧ w.sourceIndex = i)),
        w.targetId = (motion.lipSyncParameterIds.getD []).getD i "" ∧
        w.value = l ∧ w.weight = fadeWeight) := by
  simp only [doUpdateParameters, hmd] at hl ⊢
  rw [hl]
  set E := entryAfterAdjust motion entryIn with hE
  set T := sampleTimeOf motion md userTimeSeconds E with hT
  set D := adjustedDuration motion md with hD
  set C := isCorrectionOf motion with hC
  set TIN := assetFadeInFactor motion es userTimeSeconds E with hTIN
  set TOUT := assetFadeOutFactor motion es userTimeSeconds E with hTOUT
  set R1 := modelCurvesLoop md T D C 0 none none motion.modelOpacity [] with hR1
  set EBIDS := motion.eyeBlinkParameterIds.getD [] with hEB
  set LSIDS := motion.lipSyncParameterIds.getD [] with hLS
  rw [paramCurvesLoop_append md model es motion E userTimeSeconds fadeWeight T D C TIN TOUT
    R1.2.1 (some l) EBIDS LSIDS R1.1 0 0 0 R1.2.2.2.2]
  set TP := paramCurvesLoop md model es motion E userTimeSeconds fadeWeight T D C TIN TOUT
    R1.2.1 (some l) EBIDS LSIDS R1.1 0 0 0 [] with hTP
  simp only []
  rw [partOpacityCurvesLoop_append md model motion T D C TP.1]
  rw [applyOverlay_some WriteSite.lipSyncOverlay LSIDS l fadeWeight motion.eyeBlinkAdditive
    TP.2.2.1]
  rw [effectOverlayLoop_eq WriteSite.lipSyncOverlay LSIDS l fadeWeight motion.eyeBlinkAdditive
    TP.2.2.1 hlsLen 0]
  rw [Nat.sub_zero]
  rw [applyOverlay_append WriteSite.eyeBlinkOverlay EBIDS R1.2.1 fadeWeight
    motion.eyeBlinkAdditive TP.2.1]
  have hS1 : ∀ w ∈ R1.2.2.2.2, w.site = WriteSite.modelOpacityWrite := by
    intro w hw
    rw [hR1] at hw
    rcases modelCurvesLoop_mem md T D C 0 none none motion.modelOpacity [] w hw with hx | hx
    · exact absurd hx (List.not_mem_nil w)
    · exact hx
  have hS2 : ∀ w ∈ TP.2.2.2.2, w.site = WriteSite.paramCurve ∧
      w.targetId = (md.curvesAt w.sourceIndex).id := by
    intro w hw
    rw [hTP] at hw
    rcases paramCurvesLoop_mem md model es motion E userTimeSeconds fadeWeight T D C TIN TOUT
      R1.2.1 (some l) EBIDS LSIDS R1.1 0 0 0 [] w hw with hx | hx
    · exact absurd hx (List.not_mem_nil w)
    · exact ⟨hx.1, hx.2.2.1⟩
  have hS3 : ∀ w ∈ applyOverlay WriteSite.eyeBlinkOverlay EBIDS R1.2.1 fadeWeight
      motion.eyeBlinkAdditive TP.2.1 [], w.site = WriteSite.eyeBlinkOverlay := by
    intro w hw
    rcases applyOverlay_mem WriteSite.eyeBlinkOverlay EBIDS R1.2.1 fadeWeight
      motion.eyeBlinkAdditive TP.2.1 [] w hw with hx | hx
    · exact absurd hx (List.not_mem_nil w)
    · exact hx
  have hS4 : ∀ w ∈ (List.filter (fun j => !(TP.2.2.1.testBit j))
        (List.range' 0 LSIDS.length)).map
      (fun j => ({ site := WriteSite.lipSyncOverlay, sourceIndex := j,
                   targetId := LSIDS.getD j "", additive := motion.eyeBlinkAdditive,
                   value := l, weight := fadeWeight } : ModelWrite)),
      w.site = WriteSite.lipSyncOverlay := by
    intro w hw
    obtain ⟨j, hj, hfj⟩ := List.mem_map.mp hw
    rw [← hfj]
  have hS5 : ∀ w ∈ (partOpacityCurvesLoop md model motion T D C TP.1 []).2,
      w.site = WriteSite.partOpacityCurve := by
    intro w hw
    rcases partOpacityCurvesLoop_mem md model motion T D C TP.1 [] w hw with hx | hx
    · exact absurd hx (List.not_mem_nil w)
    · exact hx
  have hclaim : (∃ w ∈ R1.2.2.2.2 ++ TP.2.2.2.2 ++
        applyOverlay WriteSite.eyeBlinkOverlay EBIDS R1.2.1 fadeWeight
          motion.eyeBlinkAdditive TP.2.1 [] ++
        (List.filter (fun j => !(TP.2.2.1.testBit j)) (List.range' 0 LSIDS.length)).map
          (fun j => ({ site := WriteSite.lipSyncOverlay, sourceIndex := j,
                       targetId := LSIDS.getD j "", additive := motion.eyeBlinkAdditive,
                       value := l, weight := fadeWeight } : ModelWrite)) ++
        (partOpacityCurvesLoop md model motion T D C TP.1 []).2,
      w.site = WriteSite.paramCurve ∧ w.targetId = LSIDS.getD i "") ↔
      ∃ w ∈ TP.2.2.2.2, w.targetId = LSIDS.getD i "" := by
    constructor
    · rintro ⟨w, hw, hsite, htid⟩
      simp only [List.mem_append] at hw
      rcases hw with ((((hw | hw) | hw) | hw) | hw)
      · rw [hS1 w hw] at hsite
        exact WriteSite.noConfusion hsite
      · exact ⟨w, hw, htid⟩
      · rw [hS3 w hw] at hsite
        exact WriteSite.noConfusion hsite
      · rw [hS4 w hw] at hsite
        exact WriteSite.noConfusion hsite
      · rw [hS5 w hw] at hsite
        exact WriteSite.noConfusion hsite
    · rintro ⟨w, hw, htid⟩
      refine ⟨w, ?_, (hS2 w hw).1, htid⟩
      simp only [List.mem_append]
      exact Or.inl (Or.inl (Or.inl (Or.inr hw)))
  have hflags := paramCurvesLoop_flags md model es motion E userTimeSeconds fadeWeight T D C
    TIN TOUT R1.2.1 (some l) EBIDS LSIDS hebLen hebNe hlsLen hlsNe R1.1 0 0 0 i
  rw [← hTP] at hflags
  have hbit : TP.2.2.1.testBit i = true ↔
      ∃ w ∈ TP.2.2.2.2, firstIdxFrom? LSIDS w.targetId 0 = some i := by
    rw [hflags.2]
    simp [Nat.zero_testBit]
  have hbridge : (∃ w ∈ TP.2.2.2.2, w.targetId = LSIDS.getD i "") ↔
      ∃ w ∈ TP.2.2.2.2, firstIdxFrom? LSIDS w.targetId 0 = some i := by
    constructor
    · rintro ⟨w, hw, htid⟩
      refine ⟨w, hw, ?_⟩
      rw [htid]
      exact firstIdxFrom?_nodup LSIDS hlsNd i hi 0 (Nat.zero_le i)
    · rintro ⟨w, hw, hfi⟩
      obtain ⟨h1, h2, h3⟩ := firstIdxFrom?_some LSIDS w.targetId 0 i hfi
      exact ⟨w, hw, h2.symm⟩
  have hf1 : List.filter (fun w => decide (w.site = WriteSite.lipSyncOverlay ∧
      w.sourceIndex = i)) R1.2.2.2.2 = [] :=
    filter_eq_nil_of_sites _ _ (fun w hw => by simp [hS1 w hw])
  have hf2 : List.filter (fun w => decide (w.site = WriteSite.lipSyncOverlay ∧
      w.sourceIndex = i)) TP.2.2.2.2 = [] :=
    filter_eq_nil_of_sites _ _ (fun w hw => by simp [(hS2 w hw).1])
  have hf3 : List.filter (fun w => decide (w.site = WriteSite.lipSyncOverlay ∧
      w.sourceIndex = i)) (applyOverlay WriteSite.eyeBlinkOverlay EBIDS R1.2.1 fadeWeight
      motion.eyeBlinkAdditive TP.2.1 []) = [] :=
    filter_eq_nil_of_sites _ _ (fun w hw => by simp [hS3 w hw])
  have hf5 : List.filter (fun w => decide (w.site = WriteSite.lipSyncOverlay ∧
      w.sourceIndex = i)) (partOpacityCurvesLoop md model motion T D C TP.1 []).2 = [] :=
    filter_eq_nil_of_sites _ _ (fun w hw => by simp [hS5 w hw])
  have hfC := map_filter_single
    ((List.range' 0 LSIDS.length).filter (fun j => !(TP.2.2.1.testBit j)))
    (List.Nodup.filter _ (by rw [← List.range_eq_range']; exact List.nodup_range _))
    (fun j => ({ site := WriteSite.lipSyncOverlay, sourceIndex := j,
                 targetId := LSIDS.getD j "", additive := motion.eyeBlinkAdditive,
                 value := l, weight := fadeWeight } : ModelWrite))
    (fun w => decide (w.site = WriteSite.lipSyncOverlay ∧ w.sourceIndex = i)) i
    (by intro j hj; simp)
  refine ⟨fun hcl => ?_, fun hncl => ?_⟩
  · have hb : TP.2.2.1.testBit i = true := hbit.mpr (hbridge.mp (hclaim.mp hcl))
    have hnl : i ∉ (List.range' 0 LSIDS.length).filter (fun j => !(TP.2.2.1.testBit j)) := by
      intro hx
      have hx2 := (List.mem_filter.mp hx).2
      simp [hb] at hx2
    rw [if_neg hnl] at hfC
    simp only [List.filter_append]
    rw [hf1, hf2, hf3, hfC, hf5]
    simp
  · have hb : TP.2.2.1.testBit i = false := by
      cases hxx : TP.2.2.1.testBit i
      · rfl
      · exact absurd (hclaim.mpr (hbridge.mpr (hbit.mp hxx))) hncl
    have hl2 : i ∈ (List.range' 0 LSIDS.length).filter (fun j => !(TP.2.2.1.testBit j)) := by
      rw [List.mem_filter]
      refine ⟨?_, ?_⟩
      · rw [← List.range_eq_range']
        exact List.mem_range.mpr hi
      · simp [hb]
    rw [if_pos hl2] at hfC
    constructor
    · simp only [List.filter_append]
      rw [hf1, hf2, hf3, hfC, hf5]
      simp
    · intro w hw
      simp only [List.filter_append] at hw
      rw [hf1, hf2, hf3, hfC, hf5] at hw
      simp only [List.append_nil, List.nil_append, List.mem_singleton] at hw
      subst hw
      exact ⟨rfl, rfl, rfl⟩

/-- Claim C6, counterexample to the unrestricted statement: with a 33-entry
eye-blink target list, the Parameter curve targeting "PB" (position 32) sets
claimed bit 32 % 32 = 0, so position 0's id "PA" — which no parameter curve
targeted — receives no overlay write despite the pending eye-blink value. -/
theorem claimC6_counterexample :
    (("PA" : String) ∈ exMotionC6.eyeBlinkParameterIds.getD []) ∧
    (doUpdateParameters exMotionC6 exModelC6 (fun x => x) 0 1 {}).eyeBlinkValue
      = some (1/2) ∧
    (¬ ∃ w ∈ (doUpdateParameters exMotionC6 exModelC6 (fun x => x) 0 1 {}).writes,
      w.site = WriteSite.paramCurve ∧ w.targetId = "PA") ∧
    (doUpdateParameters exMotionC6 exModelC6 (fun x => x) 0 1 {}).writes.filter
      (fun w => decide (w.site = WriteSite.eyeBlinkOverlay ∧ w.targetId = "PA")) = [] := by
  with_unfolding_all decide

/-- Claim C6 (amended): provided each overlay target list has at most 32
entries (JavaScript's 32-bit shifts alias bit `i % 32`), no duplicates and no
empty ids, then whenever an overlay value is pending, every target-list
position whose id some Parameter-curve write carries gets no overlay write,
and every other position gets exactly one overlay write holding the pending
value at the invocation's global fade weight. -/
theorem claimC6_amended (motion : CubismOverrideMotion) (model : ModelView) (es : Rat → Rat)
    (userTimeSeconds fadeWeight : Rat) (entryIn : CubismMotionQueueEntry)
    (md : CubismMotionData) (hmd : motion.motionData = some md)
    (hebLen : (motion.eyeBlinkParameterIds.getD []).length ≤ 32)
    (hlsLen : (motion.lipSyncParameterIds.getD []).length ≤ 32)
    (hebNd : (motion.eyeBlinkParameterIds.getD []).Nodup)
    (hlsNd : (motion.lipSyncParameterIds.getD []).Nodup)
    (hebNe : ("" : String) ∉ motion.eyeBlinkParameterIds.getD [])
    (hlsNe : ("" : String) ∉ motion.lipSyncParameterIds.getD []) :
    (∀ e, (doUpdateParameters motion model es userTimeSeconds fadeWeight entryIn).eyeBlinkValue
        = some e →
      ∀ i, i < (motion.eyeBlinkParameterIds.getD []).length →
      ((∃ w ∈ (doUpdateParameters motion model es userTimeSeconds fadeWeight entryIn).writes,
          w.site = WriteSite.paramCurve ∧
          w.targetId = (motion.eyeBlinkParameterIds.getD []).getD i "") →
        (doUpdateParameters motion model es userTimeSeconds fadeWeight entryIn).writes.filter
          (fun w => decide (w.site = WriteSite.eyeBlinkOverlay ∧ w.sourceIndex = i)) = []) ∧
      (¬ (∃ w ∈ (doUpdateParameters motion model es userTimeSeconds fadeWeight
            entryIn).writes,
          w.site = WriteSite.paramCurve ∧
          w.targetId = (motion.eyeBlinkParameterIds.getD []).getD i "") →
        ((doUpdateParameters motion model es userTimeSeconds fadeWeight
            entryIn).writes.filter
            (fun w => decide (w.site = WriteSite.eyeBlinkOverlay ∧ w.sourceIndex = i))).length
            = 1 ∧
        ∀ w ∈ (doUpdateParameters motion model es userTimeSeconds fadeWeight
            entryIn).writes.filter
            (fun w => decide (w.site = WriteSite.eyeBlinkOverlay ∧ w.sourceIndex = i)),
          w.targetId = (motion.eyeBlinkParameterIds.getD []).getD i "" ∧
          w.value = e ∧ w.weight = fadeWeight)) ∧
    (∀ l, (doUpdateParameters motion model es userTimeSeconds fadeWeight entryIn).lipSyncValue
        = some l →
      ∀ i, i < (motion.lipSyncParameterIds.getD []).length →
      ((∃ w ∈ (doUpdateParameters motion model es userTimeSeconds fadeWeight entryIn).writes,
          w.site = WriteSite.paramCurve ∧
          w.targetId = (motion.lipSyncParameterIds.getD []).getD i "") →
        (doUpdateParameters motion model es userTimeSeconds fadeWeight entryIn).writes.filter
          (fun w => decide (w.site = WriteSite.lipSyncOverlay ∧ w.sourceIndex = i)) = []) ∧
      (¬ (∃ w ∈ (doUpdateParameters motion model es userTimeSeconds fadeWeight
            entryIn).writes,
          w.site = WriteSite.paramCurve ∧
          w.targetId = (motion.lipSyncParameterIds.getD []).getD i "") →
        ((doUpdateParameters motion model es userTimeSeconds fadeWeight
            entryIn).writes.filter
            (fun w => decide (w.site = WriteSite.lipSyncOverlay ∧ w.sourceIndex = i))).length
            = 1 ∧
        ∀ w ∈ (doUpdateParameters motion model es userTimeSeconds fadeWeight
            entryIn).writes.filter
            (fun w => decide (w.site = WriteSite.lipSyncOverlay ∧ w.sourceIndex = i)),
          w.targetId = (motion.lipSyncParameterIds.getD []).getD i "" ∧
          w.value = l ∧ w.weight = fadeWeight)) :=
  ⟨fun e he i hi => claimC6_aux_eb motion model es userTimeSeconds fadeWeight entryIn md e i
      hmd hebLen hlsLen hebNd hebNe hlsNe he hi,
   fun l hl i hi => claimC6_aux_ls motion model es userTimeSeconds fadeWeight entryIn md l i
      hmd hebLen hlsLen hlsNd hebNe hlsNe hl hi⟩

/-- Witness for the amended claim C6 at a concrete input: with eye-blink
targets ["P0", "P1"] and a Parameter curve writing "P1", position 1 gets no
eye-blink overlay write while position 0 gets exactly one; the lip-sync
target "M0" also gets exactly one overlay write. -/
theorem claimC6_amended_witness :
    exMotionC6w.motionData = some exMdC6w ∧
    (exMotionC6w.eyeBlinkParameterIds.getD []).length ≤ 32 ∧
    (exMotionC6w.eyeBlinkParameterIds.getD []).Nodup ∧
    (doUpdateParameters exMotionC6w exModelC6w (fun x => x) 0 (4/5) {}).writes.filter
      (fun w => decide (w.site = WriteSite.eyeBlinkOverlay ∧ w.sourceIndex = 1)) = [] ∧
    ((doUpdateParameters exMotionC6w exModelC6w (fun x => x) 0 (4/5) {}).writes.filter
      (fun w => decide (w.site = WriteSite.eyeBlinkOverlay ∧ w.sourceIndex = 0))).length
      = 1 ∧
    ((doUpdateParameters exMotionC6w exModelC6w (fun x => x) 0 (4/5) {}).writes.filter
      (fun w => decide (w.site = WriteSite.lipSyncOverlay ∧ w.sourceIndex = 0))).length
      = 1 :=
  ⟨rfl, by decide, by decide,
   ((claimC6_amended exMotionC6w exModelC6w (fun x => x) 0 (4/5) {} exMdC6w rfl
        (by decide) (by decide) (by decide) (by decide) (by decide) (by decide)).1 (1/2)
      (by with_unfolding_all decide) 1 (by decide)).1
    (by with_unfolding_all decide),
   (((claimC6_amended exMotionC6w exModelC6w (fun x => x) 0 (4/5) {} exMdC6w rfl
        (by decide) (by decide) (by decide) (by decide) (by decide) (by decide)).1 (1/2)
      (by with_unfolding_all decide) 0 (by decide)).2
    (by with_unfolding_all decide)).1,
   (((claimC6_amended exMotionC6w exModelC6w (fun x => x) 0 (4/5) {} exMdC6w rfl
        (by decide) (by decide) (by decide) (by decide) (by decide) (by decide)).2 (3/10)
      (by with_unfolding_all decide) 0 (by decide)).2
    (by with_unfolding_all decide)).1⟩

/-- Claim C7: the motion is configured additive for lip sync and override for
eye blink, yet its single lip-sync overlay write is applied in override mode —
the source's lip-sync overlay branch reads `this._eyeBlinkAdditive`, so the
value stored by `setLipSyncAdditive` is never consulted. -/
theorem claimC7_eval :
    exMotionC7.lipSyncAdditive = true ∧
    exMotionC7.eyeBlinkAdditive = false ∧
    ((doUpdateParameters exMotionC7 {} (fun x => x) 0 1 {}).writes.filter
      (fun w => decide (w.site = WriteSite.lipSyncOverlay))).length = 1 ∧
    ∀ w ∈ (doUpdateParameters exMotionC7 {} (fun x => x) 0 1 {}).writes,
      w.site = WriteSite.lipSyncOverlay → w.additive = false := by
  with_unfolding_all decide

/-- Witness for claim C10 at a concrete input: a looping V2 motion (duration
1, 30 fps) at time 5 keeps the entry's finished flag clear and invokes the
registered finished-motion callback on the loop wrap. -/
theorem claimC10_witness :
    (doUpdateParameters exMotionC10 {} (fun x => x) 5 1 {}).entry.isFinished
        = ({} : CubismMotionQueueEntry).isFinished ∧
    ((if exMotionC10.motionBehavior = MotionBehavior.MotionBehavior_V2
        then exMdC8.duration + 1 / exMdC8.fps else exMdC8.duration) ≤
      max 0 ((5 : Rat) - ({} : CubismMotionQueueEntry).startTime)) ∧
    (doUpdateParameters exMotionC10 {} (fun x => x) 5 1 {}).finishedInvoked = true :=
  ⟨(claimC10 exMotionC10 {} (fun x => x) 5 1 {} exMdC8 rfl rfl rfl).1,
   by with_unfolding_all decide,
   ((claimC10 exMotionC10 {} (fun x => x) 5 1 {} exMdC8 rfl rfl rfl).2.1
      (by with_unfolding_all decide)).1 rfl⟩

end CubismOverride
